import Mathlib

/-!
Shallow embedding of the mailbox door sensor firmware (`src/main/main.ino`)
and proofs about its boot/wake state machine.

The firmware runs `setup()` once per boot: it samples the reed-switch GPIO,
compares it against the RTC-retained `last_doorState`, maintains the
`stuckbootCount` escalation counter, optionally connects to WiFi/MQTT and
publishes door events, runs an open-door monitoring loop, and finally enters
deep sleep via `esp32_sleep()` with a configured wake source.

Time is modelled as a natural-number millisecond clock that advances exactly
on the firmware's `delay(...)` calls.  GPIO reads are an environment-supplied
stream of levels.  WiFi association, MQTT connection results and the two
configuration constants that live in the missing `wifi_info.h`
(`wifi_timeout`, `mqtt_max_retries`) are environment parameters.  Every
observable action (publish calls with their connection status, connection
attempts, branch markers, the retained-state commit and the deep-sleep entry)
is recorded in an ordered trace.
-/

namespace Mailbox

/-- Raw GPIO level LOW (source: Arduino `LOW`). -/
def LOW : Int := 0

/-- Raw GPIO level HIGH (source: Arduino `HIGH`). -/
def HIGH : Int := 1

/-- `int GPIO_DOOR_CLOSED_STATE = LOW;` (main.ino line 67). -/
def GPIO_DOOR_CLOSED_STATE : Int := LOW

/-- `int GPIO_DOOR_OPEN_STATE = HIGH;` (main.ino line 68). -/
def GPIO_DOOR_OPEN_STATE : Int := HIGH

/-- `#define MAX_OPENDOOR_TIME 30000` (main.ino line 35). -/
def MAX_OPENDOOR_TIME : Nat := 30000

/-- `#define MAX_STUCK_BOOT_COUNT 5` (main.ino line 36). -/
def MAX_STUCK_BOOT_COUNT : Int := 5

/-- `#define TIMER_SLEEP_MICROSECS 10 * 1000000` (main.ino line 37). -/
def TIMER_SLEEP_MICROSECS : Int := 10 * 1000000

/-- `#define message_door_open "Your Mailbox Has Been Opened"` (main.ino line 40). -/
def message_door_open : String := "Your Mailbox Has Been Opened"

/-- `#define message_door_closed "Mailbox Closed"` (main.ino line 41). -/
def message_door_closed : String := "Mailbox Closed"

/-- `#define message_door_stuck "Your Mailbox Was Not Shut Correctly!"` (main.ino line 42). -/
def message_door_stuck : String := "Your Mailbox Was Not Shut Correctly!"

/-- The four `RTC_DATA_ATTR long` variables that survive deep sleep
(main.ino lines 90-93).  `last_doorState` is initialized to the out-of-range
sentinel `-99` on a true cold start. -/
structure RetainedState where
  bootCount : Int
  stuckbootCount : Int
  last_doorState : Int
  time_awake_millis : Int
deriving DecidableEq

/-- The wake source configured before deep sleep: either
`esp_sleep_enable_timer_wakeup(us)` or
`esp_sleep_enable_ext0_wakeup(pin, level)`. -/
inductive WakeSource where
  | timerAlarm (us : Int)
  | edgeTrigger (level : Int)
deriving DecidableEq

/-- Observable actions of one boot cycle, in program order.
`pub` records a `client.publish` call together with whether the MQTT client
was connected at that moment (the firmware ignores the return value, so an
unconnected publish is silently lost).  `unchangedBranch` marks entry into
the `last_doorState == doorState` branch (main.ino line 281).
`loopEnter`/`loopExit` record the open-door monitoring loop boundary together
with `millis() - start_time` at that point.  `commitLast v` records the
single write of `last_doorState` inside `esp32_sleep` and `deepSleepStart`
the call to `esp_deep_sleep_start()`. -/
inductive Action where
  | wifiBegin
  | mqttAttempt (ok : Bool)
  | pub (topic payload : String) (connected : Bool)
  | unchangedBranch
  | loopEnter (elapsed : Nat)
  | loopExit (elapsed : Nat)
  | commitLast (v : Int)
  | deepSleepStart
deriving DecidableEq

/-- The environment of one boot: the stream of `digitalRead` results
(`true` = HIGH = open), per-call WiFi association behaviour
(`wifiCalls c = some k`: the `WiFi.status()` check of call `c` reads
connected from the `k`-th while-iteration on; `none`: never connects),
the results of successive `client.connect` attempts, and the two
configuration constants from the missing `wifi_info.h`. -/
structure Env where
  reads : Nat → Bool
  wifiCalls : Nat → Option Nat
  mqttOk : Nat → Bool
  wifi_timeout : Nat
  mqtt_max_retries : Nat

/-- The machine state threaded through one boot: retained memory, the
position in the read stream, the millisecond clock, the MQTT connection
flag, the currently configured wake source (none at boot), the action trace,
and the globals `start_time`, `currentMillis`, `doorState` of the sketch,
plus counters indexing the environment's WiFi-call and MQTT-attempt
behaviour. -/
structure M where
  retained : RetainedState
  readIdx : Nat
  now : Nat
  connected : Bool
  wakeCfg : Option WakeSource
  trace : List Action
  startTime : Nat
  currentMillis : Nat
  doorState : Int
  wifiCallIdx : Nat
  mqttIdx : Nat
deriving DecidableEq

/-- `digitalRead(doorSensorPIN)`: consume the next element of the read
stream, mapped to the raw levels HIGH/LOW. -/
def digitalRead (env : Env) (m : M) : Int × M :=
  ((if env.reads m.readIdx then HIGH else LOW), { m with readIdx := m.readIdx + 1 })

/-- `client.publish(topic, payload, false)`: record the call together with
the current connection status (the firmware discards the return value). -/
def publish (m : M) (topic payload : String) : M :=
  { m with trace := m.trace ++ [Action.pub topic payload m.connected] }

/-- `esp32_sleep()` (main.ino lines 224-246): accumulate awake time, commit
`last_doorState` from a fresh `digitalRead`, and enter deep sleep.  The call
never returns in the firmware; here it produces the final machine state of
the boot. -/
def esp32_sleep (env : Env) (m : M) : M :=
  let m1 := { m with retained := { m.retained with
    time_awake_millis := m.retained.time_awake_millis + ((m.now : Int) - (m.currentMillis : Int)) } }
  let r := digitalRead env m1
  let v := r.1
  let m2 := r.2
  { m2 with retained := { m2.retained with last_doorState := v },
            trace := m2.trace ++ [Action.commitLast v, Action.deepSleepStart] }

/-- Whether `WiFi.status()` reads `WL_CONNECTED` at the `j`-th while-check of
WiFi call number `c`. -/
def wifiConnectedAt (env : Env) (c j : Nat) : Bool :=
  match env.wifiCalls c with
  | some k => decide (k ≤ j)
  | none => false

/-- The `while (WiFi.status() != WL_CONNECTED)` loop of `setup_wifi`
(main.ino lines 119-140): each iteration delays 25 ms and, after the delay,
times out into `esp32_sleep()` once `millis() - start_time > wifi_timeout`.
The loop is bounded by that timeout check; `fuel` is an upper bound on the
iteration count (the caller passes `wifi_timeout / 25 + 2`, which exceeds the
iteration at which the timeout branch fires, so the fuel-exhaustion case is
unreachable and mirrors the timeout exit). -/
def wifiWaitAux (env : Env) (c : Nat) : Nat → Nat → M → Except M M
  | _, 0, m => .error (esp32_sleep env m)
  | j, fuel + 1, m =>
    if wifiConnectedAt env c j then .ok m
    else
      let m1 := { m with now := m.now + 25 }
      if env.wifi_timeout < m1.now - m1.startTime then .error (esp32_sleep env m1)
      else wifiWaitAux env c (j + 1) fuel m1

/-- `setup_wifi()` (main.ino lines 103-150): records `start_time = millis()`,
starts the association (traced as `wifiBegin`), then waits in the bounded
loop.  Returns `.error finalState` when the timeout path called
`esp32_sleep()`. -/
def setup_wifi (env : Env) (m : M) : Except M M :=
  let c := m.wifiCallIdx
  let m1 := { m with startTime := m.now, wifiCallIdx := c + 1,
                     trace := m.trace ++ [Action.wifiBegin] }
  wifiWaitAux env c 0 (env.wifi_timeout / 25 + 2) m1

/-- The `while (!client.connected())` loop of `reconnect()` (main.ino lines
157-185): each failed `client.connect` attempt delays 3000 ms and gives up
once `retry > mqtt_max_retries`.  `retry` is the number of failures so far;
`fuel` is an upper bound on the iteration count (the caller passes
`mqtt_max_retries + 3`, which exceeds the iterations possible before the
give-up branch or the connected exit fires, so the fuel-exhaustion case is
unreachable and mirrors the give-up exit). -/
def reconnectAux (env : Env) : Nat → Nat → M → M
  | _, 0, m => m
  | retry, fuel + 1, m =>
    if m.connected then m
    else
      let ok := env.mqttOk m.mqttIdx
      let m1 := { m with mqttIdx := m.mqttIdx + 1, trace := m.trace ++ [Action.mqttAttempt ok] }
      if ok then
        reconnectAux env retry fuel { m1 with connected := true }
      else
        let m2 := { m1 with now := m1.now + 3000 }
        if env.mqtt_max_retries < retry + 1 then m2
        else reconnectAux env (retry + 1) fuel m2

/-- `reconnect()` entry point: `retry` starts at 0. -/
def reconnect (env : Env) (m : M) : M :=
  reconnectAux env 0 (env.mqtt_max_retries + 3) m

/-- `connect_WIFI_MQTT()` (main.ino lines 188-206): `setup_wifi()` (which may
sleep on timeout), `client.setServer`, then `reconnect()` if the client is
not connected.  Always returns `true` when it returns at all. -/
def connect_WIFI_MQTT (env : Env) (m : M) : Except M M :=
  match setup_wifi env m with
  | .error f => .error f
  | .ok m1 => .ok (if m1.connected then m1 else reconnect env m1)

/-- The `while (doorState == GPIO_DOOR_OPEN_STATE)` monitoring loop
(main.ino lines 340-369): each iteration re-samples the sensor, computes
`elapsed_time = millis() - start_time`, delays 50 ms, and afterwards breaks
with a stuck publish once `elapsed_time > MAX_OPENDOOR_TIME`.  `fuel` is an
upper bound on the iteration count (the caller passes
`MAX_OPENDOOR_TIME / 50 + 2`; the timeout break fires within that many
iterations, so the fuel-exhaustion case is unreachable). -/
def openLoopAux (env : Env) : Nat → Nat → M → M
  | _, 0, m => m
  | n, fuel + 1, m =>
    if m.doorState = GPIO_DOOR_OPEN_STATE then
      let r := digitalRead env m
      let m1 := { r.2 with doorState := r.1 }
      let elapsed := m1.now - m1.startTime
      let m2 := { m1 with now := m1.now + 50 }
      if MAX_OPENDOOR_TIME < elapsed then
        publish m2 "/sensor/door_status" message_door_stuck
      else openLoopAux env (n + 1) fuel m2
    else m

/-- The stuck-recovery block of `setup()` (main.ino lines 304-314): when
`stuckbootCount > MAX_STUCK_BOOT_COUNT` on a changed sample, connect (which
may sleep on WiFi timeout), publish the door level and the closed/recovered
status, then reset `stuckbootCount` to 0. -/
def afterRecovery (env : Env) (m : M) : Except M M :=
  if MAX_STUCK_BOOT_COUNT < m.retained.stuckbootCount then
    match connect_WIFI_MQTT env m with
    | .error f => .error f
    | .ok m1 =>
      let m2 := publish m1 "/sensor/door" (toString m1.doorState)
      let m3 := publish m2 "/sensor/door_status" message_door_closed
      .ok { m3 with retained := { m3.retained with stuckbootCount := 0 } }
  else .ok m

/-- The door-open block of `setup()` (main.ino lines 324-389): when the
sample is not the closed level, connect (which may sleep on WiFi timeout),
publish the door level and the opened status, run the monitoring loop, then
`delay(250)` and disconnect MQTT and WiFi.  `loopEnter`/`loopExit` trace
markers record `millis() - start_time` at the loop boundary. -/
def openPath (env : Env) (m : M) : Except M M :=
  if m.doorState ≠ GPIO_DOOR_CLOSED_STATE then
    match connect_WIFI_MQTT env m with
    | .error f => .error f
    | .ok m1 =>
      let m2 := publish m1 "/sensor/door" (toString m1.doorState)
      let m3 := publish m2 "/sensor/door_status" message_door_open
      let m4 := { m3 with trace := m3.trace ++ [Action.loopEnter (m3.now - m3.startTime)] }
      let m5 := openLoopAux env 0 (MAX_OPENDOOR_TIME / 50 + 2) m4
      let m6 := { m5 with trace := m5.trace ++ [Action.loopExit (m5.now - m5.startTime)] }
      let m7 := { m6 with now := m6.now + 250 }
      .ok { m7 with connected := false }
  else .ok m

/-- The initial machine state of a boot: clock at 0, nothing connected, no
wake source configured, empty trace, and the sketch globals at their
initializers (`doorState = LOW`, `start_time = 0`). -/
def initM (r : RetainedState) : M :=
  { retained := r, readIdx := 0, now := 0, connected := false, wakeCfg := none,
    trace := [], startTime := 0, currentMillis := 0, doorState := LOW,
    wifiCallIdx := 0, mqttIdx := 0 }

/-- The boot sample of an environment: the first `digitalRead` of the cycle,
as a raw level. -/
def bootSample (env : Env) : Int :=
  if env.reads 0 then HIGH else LOW

/-- The continuation of `setup()` on the changed-sample branch (main.ino
lines 303-395): the recovery block, arming the edge-trigger wake source
(line 318), the door-open block, the final closed-status publish (line 394)
and the sleep entry (line 395).  Either connect call may instead sleep on
its WiFi timeout path. -/
def changedCont (env : Env) (m4 : M) : M :=
  match afterRecovery env m4 with
  | .error f => f
  | .ok m5 =>
    let m6 := { m5 with wakeCfg := some (.edgeTrigger GPIO_DOOR_OPEN_STATE) }
    match openPath env m6 with
    | .error f => f
    | .ok m7 =>
      let m8 := publish m7 "/sensor/door_status" message_door_closed
      esp32_sleep env m8

/-- `setup()` (main.ino lines 251-398), one full boot cycle from power-on to
deep sleep: `delay(50)`, `currentMillis = millis()`, sample the door,
increment `bootCount`; if the sample equals the retained `last_doorState`,
increment `stuckbootCount` and either escalate to a timer wake with an
(unconnected) stuck publish, or delay 5 s and re-arm the edge wake; otherwise
run the changed-sample continuation. -/
def setup (env : Env) (r : RetainedState) : M :=
  let m0 := initM r
  let m1 := { m0 with now := m0.now + 50 }
  let m2 := { m1 with currentMillis := m1.now }
  let rd := digitalRead env m2
  let m3 : M := { rd.2 with doorState := rd.1 }
  let m4 : M := { m3 with retained := { m3.retained with bootCount := m3.retained.bootCount + 1 } }
  if m4.retained.last_doorState = m4.doorState then
    let m5 := { m4 with
      retained := { m4.retained with stuckbootCount := m4.retained.stuckbootCount + 1 },
      trace := m4.trace ++ [Action.unchangedBranch] }
    if MAX_STUCK_BOOT_COUNT < m5.retained.stuckbootCount then
      let m6 := publish m5 "/sensor/door_status" message_door_stuck
      let m7 := { m6 with wakeCfg := some (.timerAlarm TIMER_SLEEP_MICROSECS) }
      esp32_sleep env m7
    else
      let m6 := { m5 with now := m5.now + 5000 }
      let m7 := { m6 with wakeCfg := some (.edgeTrigger GPIO_DOOR_OPEN_STATE) }
      esp32_sleep env m7
  else
    changedCont env m4

/-- The machine state right after the boot preamble of `setup()`: clock at
50 ms, boot counter incremented, the boot sample in `doorState`, read
position 1. -/
def mBoot (env : Env) (r : RetainedState) : M :=
  { retained := ⟨r.bootCount + 1, r.stuckbootCount, r.last_doorState, r.time_awake_millis⟩,
    readIdx := 1, now := 50, connected := false, wakeCfg := none, trace := [],
    startTime := 0, currentMillis := 50, doorState := bootSample env,
    wifiCallIdx := 0, mqttIdx := 0 }

/-- Retained state after running `n` consecutive boot cycles with
environments drawn from the stream `boots`. -/
def retainedAfter (boots : Nat → Env) (r : RetainedState) : Nat → RetainedState
  | 0 => r
  | n + 1 => (setup (boots n) (retainedAfter boots r n)).retained

/-- Collapse an `Except M M`: both the slept-early payload and the normal
continuation are machine states. -/
def collapse : Except M M → M
  | .error f => f
  | .ok m => m

/-- Whether an action is a failed MQTT connection attempt. -/
def isMqttFail : Action → Bool
  | .mqttAttempt false => true
  | _ => false

/-- Number of failed MQTT connection attempts recorded in a trace. -/
def mqttFailCount (tr : List Action) : Nat :=
  tr.countP isMqttFail

/-- The value a `digitalRead` would return in state `m`: the next element of
the read stream as a raw level. -/
def readV (env : Env) (m : M) : Int :=
  if env.reads m.readIdx then HIGH else LOW

/-- Whether an action is a `client.publish` call. -/
def isPub : Action → Bool
  | .pub _ _ _ => true
  | _ => false

/-- Whether an action is the `last_doorState` commit. -/
def isCommit : Action → Bool
  | .commitLast _ => true
  | _ => false

/-- Components untouched by the WiFi wait loop: everything except the clock,
which can only advance. -/
def NetSame (m m1 : M) : Prop :=
  m1.retained = m.retained ∧ m1.readIdx = m.readIdx ∧ m1.connected = m.connected ∧
  m1.wakeCfg = m.wakeCfg ∧ m1.trace = m.trace ∧ m1.startTime = m.startTime ∧
  m1.currentMillis = m.currentMillis ∧ m1.doorState = m.doorState ∧
  m1.wifiCallIdx = m.wifiCallIdx ∧ m1.mqttIdx = m.mqttIdx ∧ m.now ≤ m1.now

/-- Components untouched by a whole `connect_WIFI_MQTT` call: retained
memory, the read stream position, the wake configuration, `currentMillis`
and `doorState`; the clock can only advance. -/
def ConnSame (m m1 : M) : Prop :=
  m1.retained = m.retained ∧ m1.readIdx = m.readIdx ∧ m1.wakeCfg = m.wakeCfg ∧
  m1.currentMillis = m.currentMillis ∧ m1.doorState = m.doorState ∧ m.now ≤ m1.now

/-- An elapsed value that equals a connection duration: 25 ms per WiFi wait
iteration up to a successful association check, plus 3000 ms per failed MQTT
attempt. -/
def ConnectElapsed (env : Env) (e : Nat) : Prop :=
  ∃ c jx f, wifiConnectedAt env c jx = true ∧ e = 25 * jx + 3000 * f

/-! ## Concrete environments used as witnesses and counterexamples -/

/-- A quiet environment: the door always reads closed, WiFi associates
immediately, MQTT connects on the first attempt. -/
def envClosed : Env := ⟨fun _ => false, fun _ => some 0, fun _ => true, 10000, 3⟩

/-- The door always reads open; WiFi and MQTT connect immediately. -/
def envOpen : Env := ⟨fun _ => true, fun _ => some 0, fun _ => true, 10000, 3⟩

/-- A constant stream of quiet boots. -/
def bootsClosed : Nat → Env := fun _ => envClosed

/-- The door always reads closed and the WiFi never associates; the timeout
configuration is 100 ms. -/
def envWifiDown : Env := ⟨fun _ => false, fun _ => none, fun _ => true, 100, 3⟩

/-- The door always reads closed and the WiFi never associates; the timeout
configuration is 75 ms. -/
def envWifiDown2 : Env := ⟨fun _ => false, fun _ => none, fun _ => true, 75, 2⟩

/-- The boot sample reads open and every later sample reads closed; WiFi
associates immediately but every MQTT attempt fails, with
`mqtt_max_retries = 11` (12 failed attempts, 36000 ms of backoff). -/
def envSlowMqtt : Env := ⟨fun i => i == 0, fun _ => some 0, fun _ => false, 10000, 11⟩

/-- The boot sample and the first in-loop sample read open, later samples
closed; WiFi associates after one 25 ms wait iteration, MQTT connects at
once. -/
def envOpenShort : Env := ⟨fun i => i ≤ 1, fun _ => some 1, fun _ => true, 10000, 3⟩

/-- A machine state at the open-door monitoring loop entry: door open,
connected, clock and `start_time` both at 50 ms, one read consumed. -/
def mLoopEntry : M :=
  { retained := ⟨1, 0, 0, 0⟩, readIdx := 1, now := 50, connected := true,
    wakeCfg := some (WakeSource.edgeTrigger GPIO_DOOR_OPEN_STATE), trace := [],
    startTime := 50, currentMillis := 50, doorState := HIGH,
    wifiCallIdx := 1, mqttIdx := 1 }

/-! ## Basic facts about the primitive operations -/

/-- Unfolding `esp32_sleep`: it appends exactly the commit of a fresh read
followed by the deep-sleep entry, writes that read into `last_doorState`,
and touches no other observable component. -/
theorem esp32_sleep_spec (env : Env) (m : M) :
    (esp32_sleep env m).trace
        = m.trace ++ [Action.commitLast (readV env m), Action.deepSleepStart] ∧
    (esp32_sleep env m).retained.last_doorState = readV env m ∧
    (esp32_sleep env m).retained.stuckbootCount = m.retained.stuckbootCount ∧
    (esp32_sleep env m).retained.bootCount = m.retained.bootCount ∧
    (esp32_sleep env m).readIdx = m.readIdx + 1 ∧
    (esp32_sleep env m).wakeCfg = m.wakeCfg ∧
    (esp32_sleep env m).now = m.now ∧
    (esp32_sleep env m).connected = m.connected ∧
    (esp32_sleep env m).startTime = m.startTime := by
  refine ⟨rfl, rfl, rfl, rfl, rfl, rfl, rfl, rfl, rfl⟩

/-- When the boot sample equals the retained `last_doorState` and the
incremented counter exceeds the threshold, `setup` runs exactly the
escalation path: an unconnected stuck publish, a timer wake source, then
sleep (main.ino lines 280-293). -/
theorem setup_unchanged_escalate (env : Env) (r : RetainedState)
    (h1 : r.last_doorState = bootSample env)
    (h2 : MAX_STUCK_BOOT_COUNT < r.stuckbootCount + 1) :
    setup env r = esp32_sleep env
      { retained := ⟨r.bootCount + 1, r.stuckbootCount + 1, r.last_doorState,
                     r.time_awake_millis⟩,
        readIdx := 1, now := 50, connected := false,
        wakeCfg := some (WakeSource.timerAlarm TIMER_SLEEP_MICROSECS),
        trace := [Action.unchangedBranch,
                  Action.pub "/sensor/door_status" message_door_stuck false],
        startTime := 0, currentMillis := 50, doorState := bootSample env,
        wifiCallIdx := 0, mqttIdx := 0 } := by
  simp only [setup, initM, digitalRead, publish, bootSample] at *
  rw [if_pos h1, if_pos h2]
  rfl

/-- When the boot sample equals the retained `last_doorState` and the
incremented counter does not exceed the threshold, `setup` runs exactly the
re-wait path: a 5-second settle delay, an edge-trigger wake source, then
sleep (main.ino lines 294-300). -/
theorem setup_unchanged_rewait (env : Env) (r : RetainedState)
    (h1 : r.last_doorState = bootSample env)
    (h2 : r.stuckbootCount + 1 ≤ MAX_STUCK_BOOT_COUNT) :
    setup env r = esp32_sleep env
      { retained := ⟨r.bootCount + 1, r.stuckbootCount + 1, r.last_doorState,
                     r.time_awake_millis⟩,
        readIdx := 1, now := 5050, connected := false,
        wakeCfg := some (WakeSource.edgeTrigger GPIO_DOOR_OPEN_STATE),
        trace := [Action.unchangedBranch],
        startTime := 0, currentMillis := 50, doorState := bootSample env,
        wifiCallIdx := 0, mqttIdx := 0 } := by
  simp only [setup, initM, digitalRead, publish, bootSample] at *
  rw [if_pos h1, if_neg (by omega)]
  rfl

/-- One boot on the unchanged branch: the counter is incremented by exactly
one, the wake source is the timer alarm when the incremented counter exceeds
the threshold and the edge trigger otherwise, the stuck publish happens
exactly on the escalation case, and the committed `last_doorState` is the
suspend-time read. -/
theorem setup_unchanged_step (env : Env) (r : RetainedState)
    (h1 : r.last_doorState = bootSample env) :
    (setup env r).retained.stuckbootCount = r.stuckbootCount + 1 ∧
    (MAX_STUCK_BOOT_COUNT < r.stuckbootCount + 1 →
      (setup env r).wakeCfg = some (WakeSource.timerAlarm TIMER_SLEEP_MICROSECS) ∧
      Action.pub "/sensor/door_status" message_door_stuck false ∈ (setup env r).trace) ∧
    (r.stuckbootCount + 1 ≤ MAX_STUCK_BOOT_COUNT →
      (setup env r).wakeCfg = some (WakeSource.edgeTrigger GPIO_DOOR_OPEN_STATE)) ∧
    (setup env r).retained.last_doorState = (if env.reads 1 then HIGH else LOW) := by
  by_cases h2 : MAX_STUCK_BOOT_COUNT < r.stuckbootCount + 1
  · rw [setup_unchanged_escalate env r h1 h2]
    refine ⟨rfl, fun _ => ⟨rfl, ?_⟩, fun h => absurd h (by omega), rfl⟩
    simp [esp32_sleep, digitalRead]
  · rw [setup_unchanged_rewait env r h1 (by omega)]
    exact ⟨rfl, fun h => absurd h h2, fun _ => rfl, rfl⟩

/-- The stuck counter after `n` unchanged boots equals its initial value
plus `n`. -/
theorem retainedAfter_stuck_count (boots : Nat → Env) (r : RetainedState) (n : Nat)
    (H : ∀ i, i < n → (retainedAfter boots r i).last_doorState = bootSample (boots i)) :
    ∀ i, i ≤ n → (retainedAfter boots r i).stuckbootCount = r.stuckbootCount + i := by
  intro i
  induction i with
  | zero => intro _; simp [retainedAfter]
  | succ i ih =>
    intro hi
    have hstep := setup_unchanged_step (boots i) (retainedAfter boots r i) (H i (by omega))
    have : (retainedAfter boots r (i + 1)).stuckbootCount
        = (retainedAfter boots r i).stuckbootCount + 1 := hstep.1
    rw [this, ih (by omega)]
    push_cast
    ring

/-- C1: for every boot whose sample equals the retained `last_doorState`,
`stuckbootCount` is incremented by exactly one; whenever the incremented
count exceeds `MAX_STUCK_BOOT_COUNT` (5), that boot publishes the stuck
door-status message and suspends with the timer-alarm wake source, and this
holds at every subsequent unchanged boot as well. -/
theorem stuck_escalation_monotone (boots : Nat → Env) (r : RetainedState) (n : Nat)
    (H : ∀ i, i < n → (retainedAfter boots r i).last_doorState = bootSample (boots i)) :
    ∀ i, i < n →
      (retainedAfter boots r (i + 1)).stuckbootCount = r.stuckbootCount + (i + 1) ∧
      (MAX_STUCK_BOOT_COUNT < r.stuckbootCount + (i + 1) →
        (setup (boots i) (retainedAfter boots r i)).wakeCfg
            = some (WakeSource.timerAlarm TIMER_SLEEP_MICROSECS) ∧
        Action.pub "/sensor/door_status" message_door_stuck false
            ∈ (setup (boots i) (retainedAfter boots r i)).trace) := by
  intro i hi
  have hcount := retainedAfter_stuck_count boots r n H i (by omega)
  have hstep := setup_unchanged_step (boots i) (retainedAfter boots r i) (H i hi)
  constructor
  · show (setup (boots i) (retainedAfter boots r i)).retained.stuckbootCount = _
    rw [hstep.1, hcount]
    omega
  · intro hesc
    exact hstep.2.1 (by rw [hcount]; omega)

/-- Witness for C1: starting from a zeroed retained state with
`last_doorState = Closed` and seven consecutive boots that all sample
Closed, the sequence hypothesis holds, and at boot index 5 (the sixth boot)
the counter reaches 6 > 5, the stuck message is published, and the wake
source is the timer alarm. -/
theorem stuck_escalation_monotone_witness :
    (∀ i, i < 7 → (retainedAfter bootsClosed ⟨0, 0, 0, 0⟩ i).last_doorState
        = bootSample (bootsClosed i)) ∧
    ((retainedAfter bootsClosed ⟨0, 0, 0, 0⟩ 6).stuckbootCount
        = (0 : Int) + (5 + 1) ∧
      (MAX_STUCK_BOOT_COUNT < (0 : Int) + (5 + 1) →
        (setup (bootsClosed 5) (retainedAfter bootsClosed ⟨0, 0, 0, 0⟩ 5)).wakeCfg
            = some (WakeSource.timerAlarm TIMER_SLEEP_MICROSECS) ∧
        Action.pub "/sensor/door_status" message_door_stuck false
            ∈ (setup (bootsClosed 5) (retainedAfter bootsClosed ⟨0, 0, 0, 0⟩ 5)).trace)) :=
  ⟨by decide, by
    have h := stuck_escalation_monotone bootsClosed ⟨0, 0, 0, 0⟩ 7 (by decide) 5 (by omega)
    exact_mod_cast h⟩

/-- C9: on the cross-boot stuck-escalation path, the whole boot trace is
exactly the unchanged-branch marker, an unconnected stuck publish, the
retained-state commit and the deep-sleep entry — in particular no WiFi or
MQTT connect action exists in the cycle, let alone before the publish. -/
theorem stuck_publish_without_connect (env : Env) (r : RetainedState)
    (h1 : r.last_doorState = bootSample env)
    (h2 : MAX_STUCK_BOOT_COUNT < r.stuckbootCount + 1) :
    ∃ v, (setup env r).trace =
      [Action.unchangedBranch,
       Action.pub "/sensor/door_status" message_door_stuck false,
       Action.commitLast v, Action.deepSleepStart] := by
  rw [setup_unchanged_escalate env r h1 h2]
  exact ⟨if env.reads 1 then HIGH else LOW, by simp [esp32_sleep, digitalRead]⟩

/-- Witness for C9: with retained `last_doorState = Open`,
`stuckbootCount = 5` and an Open sample, the escalating boot's trace is as
described. -/
theorem stuck_publish_without_connect_witness :
    (⟨7, 5, 1, 0⟩ : RetainedState).last_doorState = bootSample envOpen ∧
    MAX_STUCK_BOOT_COUNT < (⟨7, 5, 1, 0⟩ : RetainedState).stuckbootCount + 1 ∧
    ∃ v, (setup envOpen ⟨7, 5, 1, 0⟩).trace =
      [Action.unchangedBranch,
       Action.pub "/sensor/door_status" message_door_stuck false,
       Action.commitLast v, Action.deepSleepStart] :=
  ⟨by decide, by decide,
    stuck_publish_without_connect envOpen ⟨7, 5, 1, 0⟩ (by decide) (by decide)⟩

/-- `NetSame` is reflexive. -/
theorem netSame_refl (m : M) : NetSame m m :=
  ⟨rfl, rfl, rfl, rfl, rfl, rfl, rfl, rfl, rfl, rfl, Nat.le_refl _⟩

/-- `NetSame` is transitive. -/
theorem netSame_trans {m m1 m2 : M} (h : NetSame m m1) (h1 : NetSame m1 m2) :
    NetSame m m2 := by
  obtain ⟨a, b, c, d, e, f, g, i, j, k, l⟩ := h
  obtain ⟨a1, b1, c1, d1, e1, f1, g1, i1, j1, k1, l1⟩ := h1
  exact ⟨a1.trans a, b1.trans b, c1.trans c, d1.trans d, e1.trans e, f1.trans f,
    g1.trans g, i1.trans i, j1.trans j, k1.trans k, l.trans l1⟩

/-- Advancing only the clock is a `NetSame` step. -/
theorem netSame_tick (m : M) (d : Nat) : NetSame m { m with now := m.now + d } :=
  ⟨rfl, rfl, rfl, rfl, rfl, rfl, rfl, rfl, rfl, rfl, Nat.le_add_right _ _⟩

/-- The WiFi wait loop either returns normally or sleeps via the timeout
path; in both cases it changes nothing but the clock. -/
theorem wifiWaitAux_cases (env : Env) (c : Nat) :
    ∀ fuel j m,
      (∃ m1, wifiWaitAux env c j fuel m = Except.ok m1 ∧ NetSame m m1) ∨
      (∃ m2, wifiWaitAux env c j fuel m = Except.error (esp32_sleep env m2) ∧ NetSame m m2) := by
  intro fuel
  induction fuel with
  | zero => exact fun j m => Or.inr ⟨m, rfl, netSame_refl m⟩
  | succ fuel ih =>
    intro j m
    by_cases h : wifiConnectedAt env c j
    · exact Or.inl ⟨m, by simp [wifiWaitAux, h], netSame_refl m⟩
    · by_cases ht : env.wifi_timeout < m.now + 25 - m.startTime
      · refine Or.inr ⟨{ m with now := m.now + 25 }, ?_, netSame_tick m 25⟩
        simp [wifiWaitAux, h, ht]
      · have hrec := ih (j + 1) { m with now := m.now + 25 }
        have heq : wifiWaitAux env c j (fuel + 1) m
            = wifiWaitAux env c (j + 1) fuel { m with now := m.now + 25 } := by
          simp [wifiWaitAux, h, ht]
        rcases hrec with ⟨m1, hok, hs⟩ | ⟨m2, herr, hs⟩
        · exact Or.inl ⟨m1, heq ▸ hok, netSame_trans (netSame_tick m 25) hs⟩
        · exact Or.inr ⟨m2, heq ▸ herr, netSame_trans (netSame_tick m 25) hs⟩

/-- If the WiFi wait loop returns normally then the association succeeded at
some check index `jx`, and the clock then reads exactly `start_time` plus
25 ms per elapsed iteration. -/
theorem wifiWaitAux_ok_now (env : Env) (c : Nat) :
    ∀ fuel j m m1, m.now = m.startTime + 25 * j → 25 * j ≤ env.wifi_timeout →
      wifiWaitAux env c j fuel m = Except.ok m1 →
      ∃ jx, wifiConnectedAt env c jx = true ∧ 25 * jx ≤ env.wifi_timeout ∧
        m1.now = m.startTime + 25 * jx := by
  intro fuel
  induction fuel with
  | zero => intro j m m1 _ _ h; exact absurd h (by simp [wifiWaitAux])
  | succ fuel ih =>
    intro j m m1 hnow hto h
    by_cases hc : wifiConnectedAt env c j
    · have : m1 = m := by
        simp [wifiWaitAux, hc] at h
        exact h.symm
      exact ⟨j, hc, hto, by rw [this, hnow]⟩
    · by_cases ht : env.wifi_timeout < m.now + 25 - m.startTime
      · exact absurd h (by simp [wifiWaitAux, hc, ht])
      · have heq : wifiWaitAux env c j (fuel + 1) m
            = wifiWaitAux env c (j + 1) fuel { m with now := m.now + 25 } := by
          simp [wifiWaitAux, hc, ht]
        have hto1 : 25 * (j + 1) ≤ env.wifi_timeout := by
          simp only [not_lt] at ht
          omega
        have := ih (j + 1) { m with now := m.now + 25 } m1
          (by simp [hnow]; ring) hto1 (heq ▸ h)
        simpa using this

/-- If the environment associates at iteration `k` and `25 * k` is within
the timeout, the WiFi wait loop returns normally after exactly `k`
iterations. -/
theorem wifiWaitAux_success (env : Env) (c k : Nat)
    (hk : env.wifiCalls c = some k) (hto : 25 * k ≤ env.wifi_timeout) :
    ∀ fuel j m, j ≤ k → k - j < fuel → m.now = m.startTime + 25 * j →
      wifiWaitAux env c j fuel m = Except.ok { m with now := m.startTime + 25 * k } := by
  intro fuel
  induction fuel with
  | zero => intro j m _ h; omega
  | succ fuel ih =>
    intro j m hj hfuel hnow
    by_cases hc : k ≤ j
    · have hjk : j = k := Nat.le_antisymm hj hc
      have hcon : wifiConnectedAt env c j = true := by simp [wifiConnectedAt, hk, hc]
      have : ({ m with now := m.startTime + 25 * k } : M) = m := by
        rw [← hjk, ← hnow]
      rw [this]
      simp [wifiWaitAux, hcon]
    · have hcon : wifiConnectedAt env c j = false := by
        simp [wifiConnectedAt, hk]
        omega
      have ht : ¬ env.wifi_timeout < m.now + 25 - m.startTime := by
        rw [hnow]
        have : 25 * (j + 1) ≤ 25 * k := by omega
        omega
      have heq : wifiWaitAux env c j (fuel + 1) m
          = wifiWaitAux env c (j + 1) fuel { m with now := m.now + 25 } := by
        simp [wifiWaitAux, hcon, ht]
      rw [heq, ih (j + 1) { m with now := m.now + 25 } (by omega) (by omega)
        (by simp [hnow]; ring)]

/-- `setup_wifi` when the association succeeds within the timeout: it
returns normally having recorded `start_time`, advanced the clock by the
association time, bumped the call counter and traced `wifiBegin`. -/
theorem setup_wifi_success (env : Env) (m : M) (k : Nat)
    (hk : env.wifiCalls m.wifiCallIdx = some k) (hto : 25 * k ≤ env.wifi_timeout) :
    setup_wifi env m = Except.ok
      { m with startTime := m.now, wifiCallIdx := m.wifiCallIdx + 1,
               trace := m.trace ++ [Action.wifiBegin], now := m.now + 25 * k } := by
  have hfuel : k - 0 < env.wifi_timeout / 25 + 2 := by
    have : k ≤ env.wifi_timeout / 25 := (Nat.le_div_iff_mul_le (by omega)).2 (by omega)
    omega
  unfold setup_wifi
  rw [wifiWaitAux_success env m.wifiCallIdx k hk hto _ 0 _ (Nat.zero_le _) hfuel (by simp)]

/-- `setup_wifi` either returns normally or sleeps on the timeout path; in
both cases the only changes besides the clock are the recorded
`start_time`, the call counter and the `wifiBegin` trace entry. -/
theorem setup_wifi_cases (env : Env) (m : M) :
    (∃ m1, setup_wifi env m = Except.ok m1 ∧ m1.retained = m.retained ∧
      m1.readIdx = m.readIdx ∧ m1.connected = m.connected ∧ m1.wakeCfg = m.wakeCfg ∧
      m1.trace = m.trace ++ [Action.wifiBegin] ∧ m1.startTime = m.now ∧
      m1.currentMillis = m.currentMillis ∧ m1.doorState = m.doorState ∧
      m1.wifiCallIdx = m.wifiCallIdx + 1 ∧ m1.mqttIdx = m.mqttIdx ∧ m.now ≤ m1.now) ∨
    (∃ m2, setup_wifi env m = Except.error (esp32_sleep env m2) ∧ m2.retained = m.retained ∧
      m2.readIdx = m.readIdx ∧ m2.connected = m.connected ∧ m2.wakeCfg = m.wakeCfg ∧
      m2.trace = m.trace ++ [Action.wifiBegin] ∧ m2.startTime = m.now ∧
      m2.currentMillis = m.currentMillis ∧ m2.doorState = m.doorState ∧
      m2.wifiCallIdx = m.wifiCallIdx + 1 ∧ m2.mqttIdx = m.mqttIdx ∧ m.now ≤ m2.now) := by
  have h := wifiWaitAux_cases env m.wifiCallIdx (env.wifi_timeout / 25 + 2) 0
    { m with startTime := m.now, wifiCallIdx := m.wifiCallIdx + 1,
             trace := m.trace ++ [Action.wifiBegin] }
  rcases h with ⟨m1, hok, hs⟩ | ⟨m2, herr, hs⟩
  · obtain ⟨a, b, c, d, e, f, g, i, j, k, l⟩ := hs
    exact Or.inl ⟨m1, hok, a, b, c, d, e, f, g, i, j, k, l⟩
  · obtain ⟨a, b, c, d, e, f, g, i, j, k, l⟩ := hs
    exact Or.inr ⟨m2, herr, a, b, c, d, e, f, g, i, j, k, l⟩

/-- The MQTT retry loop always returns; it appends only `mqttAttempt`
actions (one per attempt), advances the clock by 3000 ms per failed attempt,
makes at most `mqtt_max_retries + 1 - retry` further failed attempts, and
touches nothing else. -/
theorem reconnectAux_spec (env : Env) :
    ∀ fuel retry m, retry ≤ env.mqtt_max_retries →
      ∃ Δ f,
        (reconnectAux env retry fuel m).trace = m.trace ++ Δ ∧
        (∀ a ∈ Δ, ∃ b, a = Action.mqttAttempt b) ∧
        (reconnectAux env retry fuel m).now = m.now + 3000 * f ∧
        f ≤ env.mqtt_max_retries + 1 - retry ∧
        Δ.countP isMqttFail = f ∧
        (reconnectAux env retry fuel m).retained = m.retained ∧
        (reconnectAux env retry fuel m).readIdx = m.readIdx ∧
        (reconnectAux env retry fuel m).wakeCfg = m.wakeCfg ∧
        (reconnectAux env retry fuel m).startTime = m.startTime ∧
        (reconnectAux env retry fuel m).currentMillis = m.currentMillis ∧
        (reconnectAux env retry fuel m).doorState = m.doorState ∧
        (reconnectAux env retry fuel m).wifiCallIdx = m.wifiCallIdx := by
  intro fuel
  induction fuel with
  | zero =>
    intro retry m _
    exact ⟨[], 0, by simp [reconnectAux], by simp, by simp [reconnectAux], by omega,
      by decide, rfl, rfl, rfl, rfl, rfl, rfl, rfl⟩
  | succ fuel ih =>
    intro retry m hretry
    by_cases hcon : m.connected
    · exact ⟨[], 0, by simp [reconnectAux, hcon], by simp, by simp [reconnectAux, hcon],
        by omega, by decide, by simp [reconnectAux, hcon], by simp [reconnectAux, hcon],
        by simp [reconnectAux, hcon], by simp [reconnectAux, hcon], by simp [reconnectAux, hcon],
        by simp [reconnectAux, hcon], by simp [reconnectAux, hcon]⟩
    · by_cases hok : env.mqttOk m.mqttIdx
      · have heq : reconnectAux env retry (fuel + 1) m
            = reconnectAux env retry fuel
              { m with mqttIdx := m.mqttIdx + 1,
                       trace := m.trace ++ [Action.mqttAttempt true],
                       connected := true } := by
          simp [reconnectAux, hcon, hok]
        obtain ⟨Δ, f, h1, h2, h3, h4, h5, h6, h7, h8, h9, h10, h11, h12⟩ :=
          ih retry { m with mqttIdx := m.mqttIdx + 1,
                            trace := m.trace ++ [Action.mqttAttempt true],
                            connected := true } hretry
        refine ⟨Action.mqttAttempt true :: Δ, f, ?_, ?_, ?_, h4, ?_, ?_, ?_, ?_, ?_, ?_, ?_, ?_⟩
        · rw [heq, h1]; simp
        · intro a ha
          rw [List.mem_cons] at ha
          rcases ha with ha | ha
          · exact ⟨true, ha⟩
          · exact h2 a ha
        · rw [heq, h3]
        · simp [List.countP_cons, isMqttFail, h5]
        · rw [heq, h6]
        · rw [heq, h7]
        · rw [heq, h8]
        · rw [heq, h9]
        · rw [heq, h10]
        · rw [heq, h11]
        · rw [heq, h12]
      · by_cases hgiveup : env.mqtt_max_retries < retry + 1
        · have heq : reconnectAux env retry (fuel + 1) m
              = { m with mqttIdx := m.mqttIdx + 1,
                         trace := m.trace ++ [Action.mqttAttempt false],
                         now := m.now + 3000 } := by
            simp [reconnectAux, hcon, hok, hgiveup]
          refine ⟨[Action.mqttAttempt false], 1, by rw [heq], ?_, by rw [heq], by omega,
            by decide, by rw [heq], by rw [heq], by rw [heq],
            by rw [heq], by rw [heq], by rw [heq], by rw [heq]⟩
          intro a ha
          rw [List.mem_singleton] at ha
          exact ⟨false, ha⟩
        · have heq : reconnectAux env retry (fuel + 1) m
              = reconnectAux env (retry + 1) fuel
                { m with mqttIdx := m.mqttIdx + 1,
                         trace := m.trace ++ [Action.mqttAttempt false],
                         now := m.now + 3000 } := by
            simp [reconnectAux, hcon, hok, hgiveup]
          obtain ⟨Δ, f, h1, h2, h3, h4, h5, h6, h7, h8, h9, h10, h11, h12⟩ :=
            ih (retry + 1) { m with mqttIdx := m.mqttIdx + 1,
                                    trace := m.trace ++ [Action.mqttAttempt false],
                                    now := m.now + 3000 } (by omega)
          refine ⟨Action.mqttAttempt false :: Δ, f + 1, ?_, ?_, ?_, by omega, ?_, ?_, ?_,
            ?_, ?_, ?_, ?_, ?_⟩
          · rw [heq, h1]; simp
          · intro a ha
            rw [List.mem_cons] at ha
            rcases ha with ha | ha
            · exact ⟨false, ha⟩
            · exact h2 a ha
          · rw [heq, h3]; simp; ring
          · simp [List.countP_cons, isMqttFail, h5]
          · rw [heq, h6]
          · rw [heq, h7]
          · rw [heq, h8]
          · rw [heq, h9]
          · rw [heq, h10]
          · rw [heq, h11]
          · rw [heq, h12]

/-- `connect_WIFI_MQTT` either returns normally — preserving retained
memory, the read position and the wake configuration, appending only the
`wifiBegin` marker and MQTT attempts, recording `start_time` at its entry
clock and advancing the clock by 25 ms per WiFi wait iteration plus 3000 ms
per failed MQTT attempt — or sleeps on the WiFi timeout path with only the
`wifiBegin` marker appended. -/
theorem connect_cases (env : Env) (m : M) :
    (∃ m1, connect_WIFI_MQTT env m = Except.ok m1 ∧ ConnSame m m1 ∧
      (∃ Δ, m1.trace = m.trace ++ Action.wifiBegin :: Δ ∧
        (∀ a ∈ Δ, ∃ b, a = Action.mqttAttempt b) ∧
        Δ.countP isMqttFail ≤ env.mqtt_max_retries + 1) ∧
      (∃ jx f, wifiConnectedAt env m.wifiCallIdx jx = true ∧ 25 * jx ≤ env.wifi_timeout ∧
        m1.startTime = m.now ∧ m1.now = m.now + 25 * jx + 3000 * f)) ∨
    (∃ m2, connect_WIFI_MQTT env m = Except.error (esp32_sleep env m2) ∧ ConnSame m m2 ∧
      m2.trace = m.trace ++ [Action.wifiBegin] ∧ m2.connected = m.connected) := by
  rcases setup_wifi_cases env m with
    ⟨mw, hok, ha, hb, hc, hd, he, hf, hg, hi, hj, hk, hl⟩ |
    ⟨m2, herr, ha, hb, hc, hd, he, hf, hg, hi, hj, hk, hl⟩
  · have hjx : ∃ jx, wifiConnectedAt env m.wifiCallIdx jx = true
        ∧ 25 * jx ≤ env.wifi_timeout ∧ mw.now = m.now + 25 * jx := by
      have h0 := wifiWaitAux_ok_now env m.wifiCallIdx (env.wifi_timeout / 25 + 2) 0
        { m with startTime := m.now, wifiCallIdx := m.wifiCallIdx + 1,
                 trace := m.trace ++ [Action.wifiBegin] } mw (by simp) (by simp) (by
          unfold setup_wifi at hok
          exact hok)
      simpa using h0
    obtain ⟨jx, hjc, hjto, hjn⟩ := hjx
    by_cases hcon : mw.connected
    · have heq : connect_WIFI_MQTT env m = Except.ok mw := by
        unfold connect_WIFI_MQTT
        rw [hok]
        simp [hcon]
      refine Or.inl ⟨mw, heq, ⟨ha, hb, hd, hg, hi, hl⟩,
        ⟨[], by rw [he], by simp, by simp⟩, jx, 0, hjc, hjto, hf, by omega⟩
    · have heq : connect_WIFI_MQTT env m = Except.ok (reconnect env mw) := by
        unfold connect_WIFI_MQTT
        rw [hok]
        simp [hcon]
      have hre : reconnect env mw = reconnectAux env 0 (env.mqtt_max_retries + 3) mw := rfl
      obtain ⟨Δ, f, h1, h2, h3, h4, h5, h6, h7, h8, h9, h10, h11, h12⟩ :=
        reconnectAux_spec env (env.mqtt_max_retries + 3) 0 mw (Nat.zero_le _)
      refine Or.inl ⟨reconnect env mw, heq, ⟨?_, ?_, ?_, ?_, ?_, ?_⟩,
        ⟨Δ, ?_, h2, ?_⟩, jx, f, hjc, hjto, ?_, ?_⟩
      · rw [hre, h6, ha]
      · rw [hre, h7, hb]
      · rw [hre, h8, hd]
      · rw [hre, h10, hg]
      · rw [hre, h11, hi]
      · rw [hre, h3]; omega
      · rw [hre, h1, he]; simp
      · omega
      · rw [hre, h9, hf]
      · rw [hre, h3, hjn]
  · have heq2 : connect_WIFI_MQTT env m = Except.error (esp32_sleep env m2) := by
      unfold connect_WIFI_MQTT
      rw [herr]
    exact Or.inr ⟨m2, heq2, ⟨ha, hb, hd, hg, hi, hl⟩, he, hc⟩

/-- The monitoring loop is a no-op when the door is not at the open level. -/
theorem openLoopAux_notOpen (env : Env) (n fuel : Nat) (m : M)
    (h : m.doorState ≠ GPIO_DOOR_OPEN_STATE) : openLoopAux env n fuel m = m := by
  cases fuel with
  | zero => rfl
  | succ fuel => simp [openLoopAux, h]

/-- The monitoring loop appends at most one action — the stuck publish on
the timeout exit — and leaves retained memory, the wake configuration, the
connection flag and the timing globals unchanged. -/
theorem openLoopAux_cases (env : Env) :
    ∀ fuel n m, ∃ Δ,
      (openLoopAux env n fuel m).trace = m.trace ++ Δ ∧
      (Δ = [] ∨ Δ = [Action.pub "/sensor/door_status" message_door_stuck m.connected]) ∧
      (openLoopAux env n fuel m).retained = m.retained ∧
      (openLoopAux env n fuel m).wakeCfg = m.wakeCfg ∧
      (openLoopAux env n fuel m).connected = m.connected ∧
      (openLoopAux env n fuel m).startTime = m.startTime ∧
      (openLoopAux env n fuel m).currentMillis = m.currentMillis ∧
      (openLoopAux env n fuel m).wifiCallIdx = m.wifiCallIdx ∧
      (openLoopAux env n fuel m).mqttIdx = m.mqttIdx ∧
      m.now ≤ (openLoopAux env n fuel m).now := by
  intro fuel
  induction fuel with
  | zero =>
    intro n m
    exact ⟨[], by simp [openLoopAux], Or.inl rfl, rfl, rfl, rfl, rfl, rfl, rfl, rfl,
      Nat.le_refl _⟩
  | succ fuel ih =>
    intro n m
    by_cases hd : m.doorState = GPIO_DOOR_OPEN_STATE
    · by_cases ht : MAX_OPENDOOR_TIME < m.now - m.startTime
      · have heq : openLoopAux env n (fuel + 1) m
            = publish { m with readIdx := m.readIdx + 1,
                               doorState := if env.reads m.readIdx then HIGH else LOW,
                               now := m.now + 50 }
                "/sensor/door_status" message_door_stuck := by
          simp [openLoopAux, digitalRead, hd, ht]
        refine ⟨[Action.pub "/sensor/door_status" message_door_stuck m.connected],
          by rw [heq]; rfl, Or.inr rfl, by rw [heq]; rfl, by rw [heq]; rfl, by rw [heq]; rfl,
          by rw [heq]; rfl, by rw [heq]; rfl, by rw [heq]; rfl, by rw [heq]; rfl, ?_⟩
        rw [heq]
        show m.now ≤ m.now + 50
        omega
      · have heq : openLoopAux env n (fuel + 1) m
            = openLoopAux env (n + 1) fuel
              { m with readIdx := m.readIdx + 1,
                       doorState := if env.reads m.readIdx then HIGH else LOW,
                       now := m.now + 50 } := by
          simp [openLoopAux, digitalRead, hd, ht]
        obtain ⟨Δ, h1, h2, h3, h4, h5, h6, h7, h8, h9, h10⟩ :=
          ih (n + 1) { m with readIdx := m.readIdx + 1,
                              doorState := if env.reads m.readIdx then HIGH else LOW,
                              now := m.now + 50 }
        refine ⟨Δ, by rw [heq, h1], h2, by rw [heq, h3], by rw [heq, h4], by rw [heq, h5],
          by rw [heq, h6], by rw [heq, h7], by rw [heq, h8], by rw [heq, h9], ?_⟩
        rw [heq]
        calc m.now ≤ m.now + 50 := by omega
        _ ≤ _ := h10
    · exact ⟨[], by rw [openLoopAux_notOpen env n (fuel + 1) m hd]; simp, Or.inl rfl,
        by rw [openLoopAux_notOpen env n (fuel + 1) m hd], by rw [openLoopAux_notOpen env n (fuel + 1) m hd],
        by rw [openLoopAux_notOpen env n (fuel + 1) m hd], by rw [openLoopAux_notOpen env n (fuel + 1) m hd],
        by rw [openLoopAux_notOpen env n (fuel + 1) m hd], by rw [openLoopAux_notOpen env n (fuel + 1) m hd],
        by rw [openLoopAux_notOpen env n (fuel + 1) m hd], by rw [openLoopAux_notOpen env n (fuel + 1) m hd]⟩

/-- When the sensor never reads closed again, the monitoring loop exits via
the timeout path with exactly one stuck publish, and its exit clock is
bounded: the loop spends at most `MAX_OPENDOOR_TIME` plus two iteration
periods inside the loop (the timeout is compared against an elapsed value
computed before the iteration's 50 ms delay, and the elapsed base is
`start_time`, not the loop entry). -/
theorem openLoopAux_stuckExit (env : Env) :
    ∀ fuel n m, (∀ i, m.readIdx ≤ i → env.reads i = true) →
      m.doorState = GPIO_DOOR_OPEN_STATE →
      m.startTime ≤ m.now →
      MAX_OPENDOOR_TIME + 50 < (m.now - m.startTime) + 50 * fuel →
      1 ≤ fuel →
      (openLoopAux env n fuel m).trace
          = m.trace ++ [Action.pub "/sensor/door_status" message_door_stuck m.connected] ∧
      (openLoopAux env n fuel m).now
          ≤ max (m.now + 50) (m.startTime + MAX_OPENDOOR_TIME + 100) := by
  intro fuel
  induction fuel with
  | zero => intro n m _ _ _ _ h; omega
  | succ fuel ih =>
    intro n m hreads hd hst hfuel _
    have hread : env.reads m.readIdx = true := hreads m.readIdx (Nat.le_refl _)
    by_cases ht : MAX_OPENDOOR_TIME < m.now - m.startTime
    · have heq : openLoopAux env n (fuel + 1) m
          = publish { m with readIdx := m.readIdx + 1,
                             doorState := if env.reads m.readIdx then HIGH else LOW,
                             now := m.now + 50 }
              "/sensor/door_status" message_door_stuck := by
        simp [openLoopAux, digitalRead, hd, ht]
      constructor
      · rw [heq]; rfl
      · rw [heq]
        show m.now + 50 ≤ _
        omega
    · have hfuel1 : 1 ≤ fuel := by omega
      have heq : openLoopAux env n (fuel + 1) m
          = openLoopAux env (n + 1) fuel
            { m with readIdx := m.readIdx + 1,
                     doorState := if env.reads m.readIdx then HIGH else LOW,
                     now := m.now + 50 } := by
        simp [openLoopAux, digitalRead, hd, ht]
      have hrec := ih (n + 1)
        { m with readIdx := m.readIdx + 1,
                 doorState := if env.reads m.readIdx then HIGH else LOW,
                 now := m.now + 50 }
        (fun i hi => hreads i (Nat.le_of_succ_le hi))
        (by simp [hread, GPIO_DOOR_OPEN_STATE])
        (by show m.startTime ≤ m.now + 50; omega)
        (by show MAX_OPENDOOR_TIME + 50 < m.now + 50 - m.startTime + 50 * fuel; omega)
        hfuel1
      refine ⟨by rw [heq, hrec.1], ?_⟩
      rw [heq]
      have h2 : (openLoopAux env (n + 1) fuel
          { m with readIdx := m.readIdx + 1,
                   doorState := if env.reads m.readIdx then HIGH else LOW,
                   now := m.now + 50 }).now
          ≤ max (m.now + 50 + 50) (m.startTime + MAX_OPENDOOR_TIME + 100) := hrec.2
      have h3 : m.now + 50 + 50 ≤ m.startTime + MAX_OPENDOOR_TIME + 100 := by omega
      have h4 : max (m.now + 50 + 50) (m.startTime + MAX_OPENDOOR_TIME + 100)
          = m.startTime + MAX_OPENDOOR_TIME + 100 := Nat.max_eq_right h3
      exact le_trans (h4 ▸ h2) (le_max_right _ _)

/-- When the sensor first reads closed at in-loop read `jc` and the elapsed
time has not yet exceeded the timeout at that iteration, the monitoring
loop exits normally: no publish, door state closed, exactly `jc + 1`
iterations of 50 ms each. -/
theorem openLoopAux_closedExit (env : Env) :
    ∀ jc fuel n m,
      (∀ t, t < jc → env.reads (m.readIdx + t) = true) →
      env.reads (m.readIdx + jc) = false →
      m.doorState = GPIO_DOOR_OPEN_STATE →
      m.startTime ≤ m.now →
      (m.now - m.startTime) + 50 * jc ≤ MAX_OPENDOOR_TIME →
      jc < fuel →
      (openLoopAux env n fuel m).trace = m.trace ∧
      (openLoopAux env n fuel m).doorState = GPIO_DOOR_CLOSED_STATE ∧
      (openLoopAux env n fuel m).now = m.now + 50 * (jc + 1) := by
  intro jc
  induction jc with
  | zero =>
    intro fuel n m _ hclosed hd hst helapsed hfuel
    obtain ⟨fuel, rfl⟩ : ∃ f, fuel = f + 1 := ⟨fuel - 1, by omega⟩
    have ht : ¬ MAX_OPENDOOR_TIME < m.now - m.startTime := by omega
    have hread0 : env.reads m.readIdx = false := by simpa using hclosed
    have heq : openLoopAux env n (fuel + 1) m
        = openLoopAux env (n + 1) fuel
          { m with readIdx := m.readIdx + 1, doorState := LOW, now := m.now + 50 } := by
      simp [openLoopAux, digitalRead, hd, ht, hread0]
    rw [heq, openLoopAux_notOpen env (n + 1) fuel _ (by
      show LOW ≠ GPIO_DOOR_OPEN_STATE
      decide)]
    exact ⟨rfl, rfl, rfl⟩
  | succ jc ih =>
    intro fuel n m hreads hclosed hd hst helapsed hfuel
    obtain ⟨fuel, rfl⟩ : ∃ f, fuel = f + 1 := ⟨fuel - 1, by omega⟩
    have ht : ¬ MAX_OPENDOOR_TIME < m.now - m.startTime := by omega
    have hread0 : env.reads m.readIdx = true := by
      have := hreads 0 (by omega)
      simpa using this
    have heq : openLoopAux env n (fuel + 1) m
        = openLoopAux env (n + 1) fuel
          { m with readIdx := m.readIdx + 1, doorState := HIGH, now := m.now + 50 } := by
      simp [openLoopAux, digitalRead, hd, ht, hread0]
    have hrec := ih fuel (n + 1)
      { m with readIdx := m.readIdx + 1, doorState := HIGH, now := m.now + 50 }
      (fun t htlt => by
        have := hreads (t + 1) (by omega)
        show env.reads (m.readIdx + 1 + t) = true
        rw [show m.readIdx + 1 + t = m.readIdx + (t + 1) by omega]
        exact this)
      (by show env.reads (m.readIdx + 1 + jc) = false
          rw [show m.readIdx + 1 + jc = m.readIdx + (jc + 1) by omega]
          exact hclosed)
      rfl
      (by show m.startTime ≤ m.now + 50; omega)
      (by show m.now + 50 - m.startTime + 50 * jc ≤ MAX_OPENDOOR_TIME; omega)
      (by omega)
    refine ⟨by rw [heq, hrec.1], by rw [heq]; exact hrec.2.1, ?_⟩
    rw [heq, hrec.2.2]
    show m.now + 50 + 50 * (jc + 1) = m.now + 50 * (jc + 1 + 1)
    ring

/-- The recovery block: a no-op when the counter is within the threshold;
otherwise it connects and either returns with the counter reset to zero
having issued the door-level and closed/recovered publishes, or sleeps on
the WiFi timeout path with the counter (and everything else) untouched. -/
theorem afterRecovery_cases (env : Env) (m : M) :
    (afterRecovery env m = Except.ok m ∧ m.retained.stuckbootCount ≤ MAX_STUCK_BOOT_COUNT) ∨
    (MAX_STUCK_BOOT_COUNT < m.retained.stuckbootCount ∧ ∃ m1 Δ,
      afterRecovery env m = Except.ok m1 ∧
      m1.retained.stuckbootCount = 0 ∧
      m1.retained.bootCount = m.retained.bootCount ∧
      m1.retained.last_doorState = m.retained.last_doorState ∧
      m1.retained.time_awake_millis = m.retained.time_awake_millis ∧
      m1.readIdx = m.readIdx ∧ m1.wakeCfg = m.wakeCfg ∧
      m1.currentMillis = m.currentMillis ∧ m1.doorState = m.doorState ∧ m.now ≤ m1.now ∧
      m1.trace = m.trace ++ Δ ∧
      Action.pub "/sensor/door_status" message_door_closed m1.connected ∈ Δ ∧
      (∀ a ∈ Δ, a = Action.wifiBegin ∨ (∃ b, a = Action.mqttAttempt b) ∨
        (∃ t p c, a = Action.pub t p c))) ∨
    (MAX_STUCK_BOOT_COUNT < m.retained.stuckbootCount ∧ ∃ m2,
      afterRecovery env m = Except.error (esp32_sleep env m2) ∧
      connect_WIFI_MQTT env m = Except.error (esp32_sleep env m2) ∧
      m2.retained = m.retained ∧ m2.readIdx = m.readIdx ∧ m2.wakeCfg = m.wakeCfg ∧
      m2.currentMillis = m.currentMillis ∧ m2.doorState = m.doorState ∧
      m2.trace = m.trace ++ [Action.wifiBegin] ∧ m.now ≤ m2.now) := by
  by_cases hstk : MAX_STUCK_BOOT_COUNT < m.retained.stuckbootCount
  · rcases connect_cases env m with
      ⟨m1, hok, ⟨ca, cb, cc, cd, ce, cf⟩, ⟨Δc, htr, hΔ, _⟩, _⟩ |
      ⟨m2, herr, ⟨ca, cb, cc, cd, ce, cf⟩, htr, _⟩
    · have heq : afterRecovery env m = Except.ok
          { (publish (publish m1 "/sensor/door" (toString m1.doorState))
              "/sensor/door_status" message_door_closed) with
            retained := { (publish (publish m1 "/sensor/door" (toString m1.doorState))
              "/sensor/door_status" message_door_closed).retained with stuckbootCount := 0 } } := by
        unfold afterRecovery
        rw [if_pos hstk, hok]
      refine Or.inr (Or.inl ⟨hstk,
        { (publish (publish m1 "/sensor/door" (toString m1.doorState))
            "/sensor/door_status" message_door_closed) with
          retained := { (publish (publish m1 "/sensor/door" (toString m1.doorState))
            "/sensor/door_status" message_door_closed).retained with stuckbootCount := 0 } },
        Action.wifiBegin :: Δc
          ++ [Action.pub "/sensor/door" (toString m1.doorState) m1.connected,
              Action.pub "/sensor/door_status" message_door_closed m1.connected],
        heq, rfl, ?_, ?_, ?_, ?_, ?_, ?_, ?_, cf, ?_, ?_, ?_⟩)
      · show m1.retained.bootCount = m.retained.bootCount
        rw [ca]
      · show m1.retained.last_doorState = m.retained.last_doorState
        rw [ca]
      · show m1.retained.time_awake_millis = m.retained.time_awake_millis
        rw [ca]
      · show m1.readIdx = m.readIdx
        exact cb
      · show m1.wakeCfg = m.wakeCfg
        exact cc
      · show m1.currentMillis = m.currentMillis
        exact cd
      · show m1.doorState = m.doorState
        exact ce
      · show (m1.trace ++ [Action.pub "/sensor/door" (toString m1.doorState) m1.connected])
            ++ [Action.pub "/sensor/door_status" message_door_closed m1.connected]
            = m.trace ++ (Action.wifiBegin :: Δc
              ++ [Action.pub "/sensor/door" (toString m1.doorState) m1.connected,
                  Action.pub "/sensor/door_status" message_door_closed m1.connected])
        rw [htr]
        simp
      · show Action.pub "/sensor/door_status" message_door_closed m1.connected ∈ _
        simp
      · intro a ha
        have ha2 : a = Action.wifiBegin ∨ a ∈ Δc ∨
            a = Action.pub "/sensor/door" (toString m1.doorState) m1.connected ∨
            a = Action.pub "/sensor/door_status" message_door_closed m1.connected := by
          simp only [List.mem_append, List.mem_cons, List.mem_singleton, List.not_mem_nil,
            or_false, false_or] at ha
          tauto
        rcases ha2 with ha | ha | ha | ha
        · exact Or.inl ha
        · rcases hΔ a ha with ⟨b, hb⟩
          exact Or.inr (Or.inl ⟨b, hb⟩)
        · exact Or.inr (Or.inr ⟨_, _, _, ha⟩)
        · exact Or.inr (Or.inr ⟨_, _, _, ha⟩)
    · have heq : afterRecovery env m = Except.error (esp32_sleep env m2) := by
        unfold afterRecovery
        rw [if_pos hstk, herr]
      exact Or.inr (Or.inr ⟨hstk, m2, heq, herr, ca, cb, cc, cd, ce, htr, cf⟩)
  · exact Or.inl ⟨by unfold afterRecovery; rw [if_neg hstk], by omega⟩

/-- The door-open block: a no-op when the sample is the closed level;
otherwise it connects and either returns normally — retained memory and the
wake configuration untouched, appending the connection actions, the two
opened publishes, the loop markers and at most one in-loop stuck publish,
every `loopEnter` elapsed value being a connection duration — or sleeps on
the WiFi timeout path. -/
theorem openPath_cases (env : Env) (m : M) :
    (openPath env m = Except.ok m ∧ m.doorState = GPIO_DOOR_CLOSED_STATE) ∨
    (m.doorState ≠ GPIO_DOOR_CLOSED_STATE ∧ ∃ m1 Δ,
      openPath env m = Except.ok m1 ∧
      m1.retained = m.retained ∧ m1.wakeCfg = m.wakeCfg ∧
      m1.currentMillis = m.currentMillis ∧ m.now ≤ m1.now ∧
      m1.trace = m.trace ++ Δ ∧
      (∀ a ∈ Δ, a = Action.wifiBegin ∨ (∃ b, a = Action.mqttAttempt b) ∨
        (∃ t p c, a = Action.pub t p c) ∨ (∃ e, a = Action.loopEnter e) ∨
        (∃ e, a = Action.loopExit e)) ∧
      (∀ e, Action.loopEnter e ∈ Δ → ConnectElapsed env e)) ∨
    (m.doorState ≠ GPIO_DOOR_CLOSED_STATE ∧ ∃ m2,
      openPath env m = Except.error (esp32_sleep env m2) ∧
      m2.retained = m.retained ∧ m2.readIdx = m.readIdx ∧ m2.wakeCfg = m.wakeCfg ∧
      m2.currentMillis = m.currentMillis ∧ m2.doorState = m.doorState ∧
      m2.trace = m.trace ++ [Action.wifiBegin] ∧ m.now ≤ m2.now) := by
  by_cases hdc : m.doorState = GPIO_DOOR_CLOSED_STATE
  · exact Or.inl ⟨by unfold openPath; rw [if_neg (by simpa using hdc)], hdc⟩
  · rcases connect_cases env m with
      ⟨m1, hok, ⟨ca, cb, cc, cd, ce, cf⟩, ⟨Δc, htr, hΔ, _⟩, ⟨jx, f, hjc, hjto, hst, hnw⟩⟩ |
      ⟨m2, herr, ⟨ca, cb, cc, cd, ce, cf⟩, htr, _⟩
    · set m3 := publish (publish m1 "/sensor/door" (toString m1.doorState))
        "/sensor/door_status" message_door_open with hm3
      set m4 := { m3 with trace := m3.trace ++ [Action.loopEnter (m3.now - m3.startTime)] }
        with hm4
      set m5 := openLoopAux env 0 (MAX_OPENDOOR_TIME / 50 + 2) m4 with hm5
      set m6 := { m5 with trace := m5.trace ++ [Action.loopExit (m5.now - m5.startTime)] }
        with hm6
      have heq : openPath env m = Except.ok
          { m6 with now := m6.now + 250, connected := false } := by
        unfold openPath
        rw [if_pos (by simpa using hdc), hok]
      obtain ⟨Δl, l1, l2, l3, l4, l5, l6, l7, l8, l9, l10⟩ :=
        openLoopAux_cases env (MAX_OPENDOOR_TIME / 50 + 2) 0 m4
      have hm4tr : m4.trace = m.trace ++ (Action.wifiBegin :: Δc
          ++ [Action.pub "/sensor/door" (toString m1.doorState) m1.connected,
              Action.pub "/sensor/door_status" message_door_open m1.connected,
              Action.loopEnter (m3.now - m3.startTime)]) := by
        show (m1.trace ++ _) ++ _ ++ _ = _
        rw [htr]
        simp
        rfl
      refine Or.inr (Or.inl ⟨hdc, { m6 with now := m6.now + 250, connected := false },
        Action.wifiBegin :: Δc
          ++ [Action.pub "/sensor/door" (toString m1.doorState) m1.connected,
              Action.pub "/sensor/door_status" message_door_open m1.connected,
              Action.loopEnter (m3.now - m3.startTime)]
          ++ Δl ++ [Action.loopExit (m5.now - m5.startTime)],
        heq, ?_, ?_, ?_, ?_, ?_, ?_, ?_⟩)
      · show m5.retained = m.retained
        exact Eq.trans (l3 : m5.retained = m4.retained) (ca : m4.retained = m.retained)
      · show m5.wakeCfg = m.wakeCfg
        exact Eq.trans (l4 : m5.wakeCfg = m4.wakeCfg) (cc : m4.wakeCfg = m.wakeCfg)
      · show m5.currentMillis = m.currentMillis
        exact Eq.trans (l7 : m5.currentMillis = m4.currentMillis)
          (cd : m4.currentMillis = m.currentMillis)
      · show m.now ≤ m6.now + 250
        have h1 : m1.now ≤ m5.now := l10
        have h2 : m6.now = m5.now := rfl
        omega
      · show m6.trace = _
        have t1 : m6.trace = m5.trace ++ [Action.loopExit (m5.now - m5.startTime)] := rfl
        rw [t1, (l1 : m5.trace = m4.trace ++ Δl), hm4tr]
        simp
      · intro a ha
        have ha2 : a = Action.wifiBegin ∨ a ∈ Δc ∨
            a = Action.pub "/sensor/door" (toString m1.doorState) m1.connected ∨
            a = Action.pub "/sensor/door_status" message_door_open m1.connected ∨
            a = Action.loopEnter (m3.now - m3.startTime) ∨ a ∈ Δl ∨
            a = Action.loopExit (m5.now - m5.startTime) := by
          simp only [List.mem_append, List.mem_cons, List.mem_singleton, List.not_mem_nil,
            or_false, false_or] at ha
          tauto
        rcases ha2 with ha | ha | ha | ha | ha | ha | ha
        · exact Or.inl ha
        · rcases hΔ a ha with ⟨b, hb⟩
          exact Or.inr (Or.inl ⟨b, hb⟩)
        · exact Or.inr (Or.inr (Or.inl ⟨_, _, _, ha⟩))
        · exact Or.inr (Or.inr (Or.inl ⟨_, _, _, ha⟩))
        · exact Or.inr (Or.inr (Or.inr (Or.inl ⟨_, ha⟩)))
        · rcases l2 with hl | hl
          · rw [hl] at ha
            exact absurd ha (List.not_mem_nil a)
          · rw [hl, List.mem_singleton] at ha
            exact Or.inr (Or.inr (Or.inl ⟨_, _, _, ha⟩))
        · exact Or.inr (Or.inr (Or.inr (Or.inr ⟨_, ha⟩)))
      · intro e he
        have he2 : Action.loopEnter e = Action.wifiBegin ∨ Action.loopEnter e ∈ Δc ∨
            Action.loopEnter e
              = Action.pub "/sensor/door" (toString m1.doorState) m1.connected ∨
            Action.loopEnter e
              = Action.pub "/sensor/door_status" message_door_open m1.connected ∨
            Action.loopEnter e = Action.loopEnter (m3.now - m3.startTime) ∨
            Action.loopEnter e ∈ Δl ∨
            Action.loopEnter e = Action.loopExit (m5.now - m5.startTime) := by
          simp only [List.mem_append, List.mem_cons, List.mem_singleton, List.not_mem_nil,
            or_false, false_or] at he
          tauto
        rcases he2 with he | he | he | he | he | he | he
        · exact absurd he (by simp)
        · rcases hΔ _ he with ⟨b, hb⟩
          exact absurd hb (by simp)
        · exact absurd he (by simp)
        · exact absurd he (by simp)
        · have hee : e = m3.now - m3.startTime := by
            injection he
          have h5n : m3.now = m1.now := rfl
          have h5s : m3.startTime = m1.startTime := rfl
          refine ⟨m.wifiCallIdx, jx, f, hjc, ?_⟩
          rw [hee, h5n, h5s, hst, hnw]
          omega
        · rcases l2 with hl | hl
          · rw [hl] at he
            exact absurd he (List.not_mem_nil _)
          · rw [hl, List.mem_singleton] at he
            exact absurd he (by simp)
        · exact absurd he (by simp)
    · have heq : openPath env m = Except.error (esp32_sleep env m2) := by
        unfold openPath
        rw [if_pos (by simpa using hdc), herr]
      exact Or.inr (Or.inr ⟨hdc, m2, heq, ca, cb, cc, cd, ce, htr, cf⟩)

/-- A failed `connect_WIFI_MQTT` is exactly a failed `setup_wifi`: the MQTT
retry loop never aborts the cycle. -/
theorem connect_error (env : Env) (m : M) (x : M)
    (h : connect_WIFI_MQTT env m = Except.error x) :
    setup_wifi env m = Except.error x := by
  unfold connect_WIFI_MQTT at h
  cases hsw : setup_wifi env m with
  | error f =>
    rw [hsw] at h
    simpa using h
  | ok mw =>
    rw [hsw] at h
    simp at h

/-- On the changed-sample branch, `setup` is the changed-branch continuation
applied to the boot state. -/
theorem setup_changed (env : Env) (r : RetainedState)
    (h : r.last_doorState ≠ bootSample env) :
    setup env r = changedCont env (mBoot env r) := by
  simp only [setup, initM, digitalRead, bootSample, mBoot] at *
  rw [if_neg h]

/-- The changed-branch continuation always ends in `esp32_sleep`; the
pre-sleep trace extends the entry trace with connection actions, publishes
and loop markers only (never the unchanged-branch marker or a commit); every
`loopEnter` elapsed value is a connection duration; and the pre-sleep wake
configuration is the armed edge trigger except when the recovery block's
connect call slept on the WiFi timeout, in which case the wake configuration
is unchanged from entry and the counter was above the threshold. -/
theorem changedCont_shape (env : Env) (m4 : M) :
    ∃ mf, changedCont env m4 = esp32_sleep env mf ∧
      (∃ Δ, mf.trace = m4.trace ++ Δ ∧
        (∀ a ∈ Δ, a = Action.wifiBegin ∨ (∃ b, a = Action.mqttAttempt b) ∨
          (∃ t p c, a = Action.pub t p c) ∨ (∃ e, a = Action.loopEnter e) ∨
          (∃ e, a = Action.loopExit e)) ∧
        (∀ e, Action.loopEnter e ∈ Δ → ConnectElapsed env e)) ∧
      (mf.wakeCfg = some (WakeSource.edgeTrigger GPIO_DOOR_OPEN_STATE) ∨
        (mf.wakeCfg = m4.wakeCfg ∧ MAX_STUCK_BOOT_COUNT < m4.retained.stuckbootCount ∧
          connect_WIFI_MQTT env m4 = Except.error (esp32_sleep env mf))) := by
  rcases afterRecovery_cases env m4 with
    ⟨hEqA, _⟩ |
    ⟨hstk, m1, Δr, hEqA, r1, r2, r3, r4, r5, r6, r7, r8, r9, rtr, rmem, rkinds⟩ |
    ⟨hstk, m2, hEqA, hconn, e1, e2, e3, e4, e5, etr, e6⟩
  · rcases openPath_cases env
      { m4 with wakeCfg := some (WakeSource.edgeTrigger GPIO_DOOR_OPEN_STATE) } with
      ⟨hEqO, _⟩ |
      ⟨hdc, mo, Δo, hEqO, o1, o2, o3, o4, o5, o6, o7⟩ |
      ⟨hdc, m2, hEqO, p1, p2, p3, p4, p5, ptr, p6⟩
    · refine ⟨publish { m4 with wakeCfg := some (WakeSource.edgeTrigger GPIO_DOOR_OPEN_STATE) }
          "/sensor/door_status" message_door_closed, ?_,
        ⟨[Action.pub "/sensor/door_status" message_door_closed m4.connected], rfl, ?_, ?_⟩,
        Or.inl rfl⟩
      · unfold changedCont
        rw [hEqA]
        show (match openPath env { m4 with
            wakeCfg := some (WakeSource.edgeTrigger GPIO_DOOR_OPEN_STATE) } with
          | .error f => f
          | .ok m7 => esp32_sleep env
              (publish m7 "/sensor/door_status" message_door_closed)) = _
        rw [hEqO]
      · intro a ha
        rw [List.mem_singleton] at ha
        exact Or.inr (Or.inr (Or.inl ⟨_, _, _, ha⟩))
      · intro e he
        rw [List.mem_singleton] at he
        exact absurd he (by simp)
    · refine ⟨publish mo "/sensor/door_status" message_door_closed, ?_,
        ⟨Δo ++ [Action.pub "/sensor/door_status" message_door_closed mo.connected],
          ?_, ?_, ?_⟩, Or.inl ?_⟩
      · unfold changedCont
        rw [hEqA]
        show (match openPath env { m4 with
            wakeCfg := some (WakeSource.edgeTrigger GPIO_DOOR_OPEN_STATE) } with
          | .error f => f
          | .ok m7 => esp32_sleep env
              (publish m7 "/sensor/door_status" message_door_closed)) = _
        rw [hEqO]
      · show mo.trace ++ _ = _
        rw [o5]
        show (m4.trace ++ Δo) ++ _ = _
        simp
      · intro a ha
        rw [List.mem_append] at ha
        rcases ha with ha | ha
        · exact o6 a ha
        · rw [List.mem_singleton] at ha
          exact Or.inr (Or.inr (Or.inl ⟨_, _, _, ha⟩))
      · intro e he
        rw [List.mem_append] at he
        rcases he with he | he
        · exact o7 e he
        · rw [List.mem_singleton] at he
          exact absurd he (by simp)
      · show mo.wakeCfg = _
        rw [o2]
    · refine ⟨m2, ?_, ⟨[Action.wifiBegin], by rw [ptr], ?_, ?_⟩, Or.inl (by rw [p3])⟩
      · unfold changedCont
        rw [hEqA]
        show (match openPath env { m4 with
            wakeCfg := some (WakeSource.edgeTrigger GPIO_DOOR_OPEN_STATE) } with
          | .error f => f
          | .ok m7 => esp32_sleep env
              (publish m7 "/sensor/door_status" message_door_closed)) = _
        rw [hEqO]
      · intro a ha
        rw [List.mem_singleton] at ha
        exact Or.inl ha
      · intro e he
        rw [List.mem_singleton] at he
        exact absurd he (by simp)
  · rcases openPath_cases env
      { m1 with wakeCfg := some (WakeSource.edgeTrigger GPIO_DOOR_OPEN_STATE) } with
      ⟨hEqO, _⟩ |
      ⟨hdc, mo, Δo, hEqO, o1, o2, o3, o4, o5, o6, o7⟩ |
      ⟨hdc, m2, hEqO, p1, p2, p3, p4, p5, ptr, p6⟩
    · refine ⟨publish { m1 with wakeCfg := some (WakeSource.edgeTrigger GPIO_DOOR_OPEN_STATE) }
          "/sensor/door_status" message_door_closed, ?_,
        ⟨Δr ++ [Action.pub "/sensor/door_status" message_door_closed m1.connected],
          ?_, ?_, ?_⟩, Or.inl rfl⟩
      · unfold changedCont
        rw [hEqA]
        show (match openPath env { m1 with
            wakeCfg := some (WakeSource.edgeTrigger GPIO_DOOR_OPEN_STATE) } with
          | .error f => f
          | .ok m7 => esp32_sleep env
              (publish m7 "/sensor/door_status" message_door_closed)) = _
        rw [hEqO]
      · show m1.trace ++ _ = _
        rw [rtr]
        simp
      · intro a ha
        rw [List.mem_append] at ha
        rcases ha with ha | ha
        · rcases rkinds a ha with hk | ⟨b, hk⟩ | ⟨t, p, c, hk⟩
          · exact Or.inl hk
          · exact Or.inr (Or.inl ⟨b, hk⟩)
          · exact Or.inr (Or.inr (Or.inl ⟨t, p, c, hk⟩))
        · rw [List.mem_singleton] at ha
          exact Or.inr (Or.inr (Or.inl ⟨_, _, _, ha⟩))
      · intro e he
        rw [List.mem_append] at he
        rcases he with he | he
        · rcases rkinds _ he with hk | ⟨b, hk⟩ | ⟨t, p, c, hk⟩
          · exact absurd hk (by simp)
          · exact absurd hk (by simp)
          · exact absurd hk (by simp)
        · rw [List.mem_singleton] at he
          exact absurd he (by simp)
    · refine ⟨publish mo "/sensor/door_status" message_door_closed, ?_,
        ⟨Δr ++ Δo ++ [Action.pub "/sensor/door_status" message_door_closed mo.connected],
          ?_, ?_, ?_⟩, Or.inl ?_⟩
      · unfold changedCont
        rw [hEqA]
        show (match openPath env { m1 with
            wakeCfg := some (WakeSource.edgeTrigger GPIO_DOOR_OPEN_STATE) } with
          | .error f => f
          | .ok m7 => esp32_sleep env
              (publish m7 "/sensor/door_status" message_door_closed)) = _
        rw [hEqO]
      · show mo.trace ++ _ = _
        rw [o5]
        show (m1.trace ++ Δo) ++ _ = _
        rw [rtr]
        simp
      · intro a ha
        simp only [List.mem_append, List.mem_singleton] at ha
        rcases ha with (ha | ha) | ha
        · rcases rkinds a ha with hk | ⟨b, hk⟩ | ⟨t, p, c, hk⟩
          · exact Or.inl hk
          · exact Or.inr (Or.inl ⟨b, hk⟩)
          · exact Or.inr (Or.inr (Or.inl ⟨t, p, c, hk⟩))
        · exact o6 a ha
        · exact Or.inr (Or.inr (Or.inl ⟨_, _, _, ha⟩))
      · intro e he
        simp only [List.mem_append, List.mem_singleton] at he
        rcases he with (he | he) | he
        · rcases rkinds _ he with hk | ⟨b, hk⟩ | ⟨t, p, c, hk⟩
          · exact absurd hk (by simp)
          · exact absurd hk (by simp)
          · exact absurd hk (by simp)
        · exact o7 e he
        · exact absurd he (by simp)
      · show mo.wakeCfg = _
        rw [o2]
    · refine ⟨m2, ?_, ⟨Δr ++ [Action.wifiBegin], ?_, ?_, ?_⟩, Or.inl (by rw [p3])⟩
      · unfold changedCont
        rw [hEqA]
        show (match openPath env { m1 with
            wakeCfg := some (WakeSource.edgeTrigger GPIO_DOOR_OPEN_STATE) } with
          | .error f => f
          | .ok m7 => esp32_sleep env
              (publish m7 "/sensor/door_status" message_door_closed)) = _
        rw [hEqO]
      · show m2.trace = _
        rw [ptr]
        show m1.trace ++ _ = _
        rw [rtr]
        simp
      · intro a ha
        rw [List.mem_append] at ha
        rcases ha with ha | ha
        · rcases rkinds a ha with hk | ⟨b, hk⟩ | ⟨t, p, c, hk⟩
          · exact Or.inl hk
          · exact Or.inr (Or.inl ⟨b, hk⟩)
          · exact Or.inr (Or.inr (Or.inl ⟨t, p, c, hk⟩))
        · rw [List.mem_singleton] at ha
          exact Or.inl ha
      · intro e he
        rw [List.mem_append] at he
        rcases he with he | he
        · rcases rkinds _ he with hk | ⟨b, hk⟩ | ⟨t, p, c, hk⟩
          · exact absurd hk (by simp)
          · exact absurd hk (by simp)
          · exact absurd hk (by simp)
        · rw [List.mem_singleton] at he
          exact absurd he (by simp)
  · refine ⟨m2, ?_, ⟨[Action.wifiBegin], by rw [etr], ?_, ?_⟩,
      Or.inr ⟨by rw [e3], hstk, hconn⟩⟩
    · unfold changedCont
      rw [hEqA]
    · intro a ha
      rw [List.mem_singleton] at ha
      exact Or.inl ha
    · intro e he
      rw [List.mem_singleton] at he
      exact absurd he (by simp)

/-- The WiFi wait loop leaves the clock no later than `start_time` plus the
timeout plus one 25 ms delay, on both the normal and the timeout exit. -/
theorem wifiWaitAux_now_le (env : Env) (c : Nat) :
    ∀ fuel j m, m.now ≤ m.startTime + env.wifi_timeout →
      (collapse (wifiWaitAux env c j fuel m)).now
        ≤ m.startTime + env.wifi_timeout + 25 := by
  intro fuel
  induction fuel with
  | zero =>
    intro j m h
    show (esp32_sleep env m).now ≤ _
    rw [(esp32_sleep_spec env m).2.2.2.2.2.2.1]
    omega
  | succ fuel ih =>
    intro j m h
    by_cases hc : wifiConnectedAt env c j
    · have heq : wifiWaitAux env c j (fuel + 1) m = Except.ok m := by
        simp [wifiWaitAux, hc]
      rw [heq]
      show m.now ≤ _
      omega
    · by_cases ht : env.wifi_timeout < m.now + 25 - m.startTime
      · have heq : wifiWaitAux env c j (fuel + 1) m
            = Except.error (esp32_sleep env { m with now := m.now + 25 }) := by
          simp [wifiWaitAux, hc, ht]
        rw [heq]
        show (esp32_sleep env { m with now := m.now + 25 }).now ≤ _
        rw [(esp32_sleep_spec env _).2.2.2.2.2.2.1]
        show m.now + 25 ≤ _
        omega
      · have heq : wifiWaitAux env c j (fuel + 1) m
            = wifiWaitAux env c (j + 1) fuel { m with now := m.now + 25 } := by
          simp [wifiWaitAux, hc, ht]
        rw [heq]
        have := ih (j + 1) { m with now := m.now + 25 } (by
          show m.now + 25 ≤ m.startTime + env.wifi_timeout
          simp only [not_lt] at ht
          omega)
        simpa using this

/-- `setup_wifi` gives the cycle back — normally or through the timeout
sleep — within `wifi_timeout` plus one delay period of clock time. -/
theorem setup_wifi_time (env : Env) (m : M) :
    (collapse (setup_wifi env m)).now ≤ m.now + env.wifi_timeout + 25 := by
  have h := wifiWaitAux_now_le env m.wifiCallIdx (env.wifi_timeout / 25 + 2) 0
    { m with startTime := m.now, wifiCallIdx := m.wifiCallIdx + 1,
             trace := m.trace ++ [Action.wifiBegin] }
    (by show m.now ≤ m.now + env.wifi_timeout; omega)
  simpa [setup_wifi] using h

/-- When no association attempt succeeds within the timeout, `setup_wifi`
takes the timeout sleep path, with the wake configuration unchanged. -/
theorem setup_wifi_fails (env : Env) (m : M)
    (h : ¬ ∃ k, env.wifiCalls m.wifiCallIdx = some k ∧ 25 * k ≤ env.wifi_timeout) :
    ∃ m2, setup_wifi env m = Except.error (esp32_sleep env m2) ∧
      m2.wakeCfg = m.wakeCfg := by
  rcases setup_wifi_cases env m with
    ⟨m1, hok, ha, hb, hc, hd, he, hf, hg, hi, hj, hk, hl⟩ |
    ⟨m2, herr, ha, hb, hc, hd, he, hf, hg, hi, hj, hk, hl⟩
  · exfalso
    obtain ⟨jx, hjc, hjto, _⟩ := wifiWaitAux_ok_now env m.wifiCallIdx
      (env.wifi_timeout / 25 + 2) 0
      { m with startTime := m.now, wifiCallIdx := m.wifiCallIdx + 1,
               trace := m.trace ++ [Action.wifiBegin] } m1 (by simp) (by simp)
      (by unfold setup_wifi at hok; exact hok)
    unfold wifiConnectedAt at hjc
    cases hwc : env.wifiCalls m.wifiCallIdx with
    | none => rw [hwc] at hjc; simp at hjc
    | some k =>
      rw [hwc] at hjc
      simp at hjc
      exact h ⟨k, hwc, by omega⟩
  · exact ⟨m2, herr, hd⟩

/-- Every boot ends in `esp32_sleep` applied to a state whose trace holds no
retained-state commit. -/
theorem setup_presleep (env : Env) (r : RetainedState) :
    ∃ mf, setup env r = esp32_sleep env mf ∧ List.countP isCommit mf.trace = 0 := by
  by_cases h : r.last_doorState = bootSample env
  · by_cases h2 : MAX_STUCK_BOOT_COUNT < r.stuckbootCount + 1
    · exact ⟨_, setup_unchanged_escalate env r h h2, by rfl⟩
    · exact ⟨_, setup_unchanged_rewait env r h (by omega), by rfl⟩
  · rw [setup_changed env r h]
    obtain ⟨mf, hcc, ⟨Δ, htr, hkinds, _⟩, _⟩ := changedCont_shape env (mBoot env r)
    refine ⟨mf, hcc, ?_⟩
    rw [htr]
    show List.countP isCommit ([] ++ Δ) = 0
    rw [List.countP_eq_zero]
    intro a ha
    rcases hkinds a (by simpa using ha) with hk | ⟨b, hk⟩ | ⟨t, p2, c2, hk⟩ |
      ⟨e, hk⟩ | ⟨e, hk⟩ <;> (rw [hk]; simp [isCommit])

/-- On a changed sample within the threshold and a closed reading, the boot
does nothing but issue the final closed-status publish and sleep with the
edge trigger armed (main.ino lines 390-395). -/
theorem setup_closed_quiet (env : Env) (r : RetainedState)
    (h1 : r.last_doorState ≠ bootSample env)
    (h2 : r.stuckbootCount ≤ MAX_STUCK_BOOT_COUNT)
    (h3 : bootSample env = GPIO_DOOR_CLOSED_STATE) :
    setup env r = esp32_sleep env
      (publish { mBoot env r with
          wakeCfg := some (WakeSource.edgeTrigger GPIO_DOOR_OPEN_STATE) }
        "/sensor/door_status" message_door_closed) := by
  rw [setup_changed env r h1]
  unfold changedCont
  have hA : afterRecovery env (mBoot env r) = Except.ok (mBoot env r) := by
    unfold afterRecovery
    rw [if_neg (show ¬ MAX_STUCK_BOOT_COUNT < (mBoot env r).retained.stuckbootCount by
      show ¬ MAX_STUCK_BOOT_COUNT < r.stuckbootCount
      omega)]
  rw [hA]
  show (match openPath env { mBoot env r with
      wakeCfg := some (WakeSource.edgeTrigger GPIO_DOOR_OPEN_STATE) } with
    | .error f => f
    | .ok m7 => esp32_sleep env (publish m7 "/sensor/door_status" message_door_closed)) = _
  have hcl : ({ mBoot env r with
      wakeCfg := some (WakeSource.edgeTrigger GPIO_DOOR_OPEN_STATE) } : M).doorState
      = GPIO_DOOR_CLOSED_STATE := h3
  have hO : openPath env { mBoot env r with
      wakeCfg := some (WakeSource.edgeTrigger GPIO_DOOR_OPEN_STATE) }
      = Except.ok { mBoot env r with
          wakeCfg := some (WakeSource.edgeTrigger GPIO_DOOR_OPEN_STATE) } := by
    unfold openPath
    rw [if_neg (not_not_intro hcl)]
  rw [hO]

/-- C5 (amended): on a cold boot (retained `last_doorState = -99`,
`stuckbootCount = 0`) whose boot sample and suspend-time sample both read
closed, the boot makes no WiFi or MQTT connection, but it still issues one
door-status publish call — the unconditional closed message of main.ino
line 394, sent while unconnected and therefore lost — and then suspends with
the edge trigger on the open level, committing `last_doorState = Closed`.
The whole trace is exactly that publish, the commit and the sleep entry. -/
theorem cold_closed_cycle (env : Env) (r : RetainedState)
    (h1 : r.last_doorState = -99) (h2 : r.stuckbootCount = 0)
    (h3 : env.reads 0 = false) (h4 : env.reads 1 = false) :
    (setup env r).wakeCfg = some (WakeSource.edgeTrigger GPIO_DOOR_OPEN_STATE) ∧
    (setup env r).retained.last_doorState = GPIO_DOOR_CLOSED_STATE ∧
    (setup env r).trace = [Action.pub "/sensor/door_status" message_door_closed false,
      Action.commitLast GPIO_DOOR_CLOSED_STATE, Action.deepSleepStart] := by
  have hbs : bootSample env = GPIO_DOOR_CLOSED_STATE := by
    unfold bootSample
    rw [h3]
    rfl
  have hneq : r.last_doorState ≠ bootSample env := by
    rw [h1, hbs]
    decide
  rw [setup_closed_quiet env r hneq (by rw [h2]; decide) hbs]
  refine ⟨rfl, ?_, ?_⟩
  · show (if env.reads 1 then HIGH else LOW) = GPIO_DOOR_CLOSED_STATE
    rw [h4]
    rfl
  · show ([] ++ [Action.pub "/sensor/door_status" message_door_closed false])
        ++ [Action.commitLast (if env.reads 1 then HIGH else LOW), Action.deepSleepStart] = _
    rw [h4]
    rfl

/-- Witness for C5 (amended): the quiet environment with a cold retained
state realizes the hypotheses. -/
theorem cold_closed_cycle_witness :
    ((⟨0, 0, -99, 0⟩ : RetainedState).last_doorState = -99 ∧
      (⟨0, 0, -99, 0⟩ : RetainedState).stuckbootCount = 0 ∧
      envClosed.reads 0 = false ∧ envClosed.reads 1 = false) ∧
    ((setup envClosed ⟨0, 0, -99, 0⟩).wakeCfg
        = some (WakeSource.edgeTrigger GPIO_DOOR_OPEN_STATE) ∧
      (setup envClosed ⟨0, 0, -99, 0⟩).retained.last_doorState = GPIO_DOOR_CLOSED_STATE ∧
      (setup envClosed ⟨0, 0, -99, 0⟩).trace
        = [Action.pub "/sensor/door_status" message_door_closed false,
           Action.commitLast GPIO_DOOR_CLOSED_STATE, Action.deepSleepStart]) :=
  ⟨⟨rfl, rfl, rfl, rfl⟩, cold_closed_cycle envClosed ⟨0, 0, -99, 0⟩ rfl rfl rfl rfl⟩

/-- Counterexample to C5 as stated: on the cold-boot-closed cycle the
firmware does issue a telemetry publish call — the unconditional
closed-status publish of main.ino line 394 — so "no telemetry is published
during the cycle" is false under the reading of publish used throughout
(issuing `client.publish`, which the escalation path also does while
unconnected). -/
theorem cold_closed_publishes :
    Action.pub "/sensor/door_status" message_door_closed false
      ∈ (setup envClosed ⟨0, 0, -99, 0⟩).trace := by
  decide

/-- C2 (amended): when the retained counter exceeds the threshold and the
boot sample differs from the retained `last_doorState`, then — provided the
boot's first WiFi connection attempt succeeds within `wifi_timeout` — the
boot issues the closed/recovered door-status publish, resets
`stuckbootCount` to 0, and suspends with the edge-trigger wake source.
(Without the WiFi proviso the boot can instead sleep inside `setup_wifi`
before any of this happens; see the counterexample.) -/
theorem recovery_resets_counter (env : Env) (r : RetainedState)
    (h1 : MAX_STUCK_BOOT_COUNT < r.stuckbootCount)
    (h2 : r.last_doorState ≠ bootSample env)
    (h3 : ∃ k, env.wifiCalls 0 = some k ∧ 25 * k ≤ env.wifi_timeout) :
    (setup env r).retained.stuckbootCount = 0 ∧
    (∃ c, Action.pub "/sensor/door_status" message_door_closed c ∈ (setup env r).trace) ∧
    (setup env r).wakeCfg = some (WakeSource.edgeTrigger GPIO_DOOR_OPEN_STATE) := by
  rw [setup_changed env r h2]
  rcases afterRecovery_cases env (mBoot env r) with
    ⟨_, hle⟩ |
    ⟨hstk, m1, Δr, hEqA, q0, q1, q2, q3, q4, q5, q6, q7, q8, qtr, qmem, qkinds⟩ |
    ⟨hstk, m2, hEqA, hconn, _⟩
  · exact absurd hle (by show ¬ r.stuckbootCount ≤ _; omega)
  · rcases openPath_cases env
      { m1 with wakeCfg := some (WakeSource.edgeTrigger GPIO_DOOR_OPEN_STATE) } with
      ⟨hO, _⟩ |
      ⟨hdc, mo, Δo, hO, o1, o2, o3, o4, o5, o6, o7⟩ |
      ⟨hdc, mx, hO, p1, p2, p3, p4, p5, ptr, p6⟩
    · have hcc : changedCont env (mBoot env r) = esp32_sleep env
          (publish { m1 with wakeCfg := some (WakeSource.edgeTrigger GPIO_DOOR_OPEN_STATE) }
            "/sensor/door_status" message_door_closed) := by
        unfold changedCont
        rw [hEqA]
        show (match openPath env { m1 with
            wakeCfg := some (WakeSource.edgeTrigger GPIO_DOOR_OPEN_STATE) } with
          | .error f => f
          | .ok m7 => esp32_sleep env
              (publish m7 "/sensor/door_status" message_door_closed)) = _
        rw [hO]
      rw [hcc]
      refine ⟨?_, ⟨m1.connected, ?_⟩, ?_⟩
      · rw [(esp32_sleep_spec env _).2.2.1]
        exact q0
      · rw [(esp32_sleep_spec env _).1]
        show _ ∈ (m1.trace ++ [Action.pub "/sensor/door_status" message_door_closed
          m1.connected]) ++ _
        simp
      · rw [(esp32_sleep_spec env _).2.2.2.2.2.1]
        rfl
    · have hcc : changedCont env (mBoot env r) = esp32_sleep env
          (publish mo "/sensor/door_status" message_door_closed) := by
        unfold changedCont
        rw [hEqA]
        show (match openPath env { m1 with
            wakeCfg := some (WakeSource.edgeTrigger GPIO_DOOR_OPEN_STATE) } with
          | .error f => f
          | .ok m7 => esp32_sleep env
              (publish m7 "/sensor/door_status" message_door_closed)) = _
        rw [hO]
      rw [hcc]
      refine ⟨?_, ⟨mo.connected, ?_⟩, ?_⟩
      · rw [(esp32_sleep_spec env _).2.2.1]
        show mo.retained.stuckbootCount = 0
        rw [show mo.retained = m1.retained from o1]
        exact q0
      · rw [(esp32_sleep_spec env _).1]
        show _ ∈ (mo.trace ++ [Action.pub "/sensor/door_status" message_door_closed
          mo.connected]) ++ _
        simp
      · rw [(esp32_sleep_spec env _).2.2.2.2.2.1]
        show mo.wakeCfg = _
        rw [o2]
    · have hcc : changedCont env (mBoot env r) = esp32_sleep env mx := by
        unfold changedCont
        rw [hEqA]
        show (match openPath env { m1 with
            wakeCfg := some (WakeSource.edgeTrigger GPIO_DOOR_OPEN_STATE) } with
          | .error f => f
          | .ok m7 => esp32_sleep env
              (publish m7 "/sensor/door_status" message_door_closed)) = _
        rw [hO]
      rw [hcc]
      refine ⟨?_, ⟨m1.connected, ?_⟩, ?_⟩
      · rw [(esp32_sleep_spec env _).2.2.1]
        show mx.retained.stuckbootCount = 0
        rw [show mx.retained = m1.retained from p1]
        exact q0
      · rw [(esp32_sleep_spec env _).1, ptr]
        show _ ∈ (m1.trace ++ [Action.wifiBegin]) ++ _
        rw [qtr]
        show _ ∈ (([] ++ Δr) ++ [Action.wifiBegin]) ++ _
        simp only [List.mem_append]
        exact Or.inl (Or.inl (Or.inr qmem))
      · rw [(esp32_sleep_spec env _).2.2.2.2.2.1]
        show mx.wakeCfg = _
        rw [p3]
  · exfalso
    obtain ⟨k, hk, hto⟩ := h3
    have hsw := connect_error env (mBoot env r) _ hconn
    have hsucc := setup_wifi_success env (mBoot env r) k hk hto
    rw [hsucc] at hsw
    simp at hsw

/-- Witness for C2 (amended): retained counter 6 with retained state Open,
quiet environment sampling Closed with instant WiFi. -/
theorem recovery_resets_counter_witness :
    (MAX_STUCK_BOOT_COUNT < (⟨7, 6, 1, 0⟩ : RetainedState).stuckbootCount ∧
      (⟨7, 6, 1, 0⟩ : RetainedState).last_doorState ≠ bootSample envClosed ∧
      ∃ k, envClosed.wifiCalls 0 = some k ∧ 25 * k ≤ envClosed.wifi_timeout) ∧
    ((setup envClosed ⟨7, 6, 1, 0⟩).retained.stuckbootCount = 0 ∧
      (∃ c, Action.pub "/sensor/door_status" message_door_closed c
        ∈ (setup envClosed ⟨7, 6, 1, 0⟩).trace) ∧
      (setup envClosed ⟨7, 6, 1, 0⟩).wakeCfg
        = some (WakeSource.edgeTrigger GPIO_DOOR_OPEN_STATE)) :=
  ⟨⟨by decide, by decide, 0, rfl, by decide⟩,
    recovery_resets_counter envClosed ⟨7, 6, 1, 0⟩ (by decide) (by decide)
      ⟨0, rfl, by decide⟩⟩

/-- Counterexample to C2 as stated: with retained `stuckbootCount = 6` and a
Closed sample differing from the retained Open state, a boot whose WiFi
never associates (timeout 75 ms) sleeps inside `setup_wifi` on the recovery
path: the counter stays 6, no closed/recovered publish is issued, and no
edge-trigger wake source is configured. -/
theorem recovery_skipped_on_wifi_timeout :
    (setup envWifiDown2 ⟨3, 6, 1, 0⟩).retained.stuckbootCount = 6 ∧
    Action.pub "/sensor/door_status" message_door_closed true
      ∉ (setup envWifiDown2 ⟨3, 6, 1, 0⟩).trace ∧
    Action.pub "/sensor/door_status" message_door_closed false
      ∉ (setup envWifiDown2 ⟨3, 6, 1, 0⟩).trace ∧
    (setup envWifiDown2 ⟨3, 6, 1, 0⟩).wakeCfg
      ≠ some (WakeSource.edgeTrigger GPIO_DOOR_OPEN_STATE) := by
  decide

/-- C6 (amended): every boot ends in `esp32_sleep` (which commits the
retained state), and the suspend happens with no wake source configured
exactly when the boot is on the changed-sample recovery path
(`stuckbootCount` above the threshold) and no WiFi association attempt of
the boot's first connect call succeeds within `wifi_timeout` — the WiFi
timeout sleep of main.ino line 137 fires before the edge trigger is armed at
line 318.  Every other sleep entry has exactly one wake source configured. -/
theorem wake_source_at_sleep (env : Env) (r : RetainedState) :
    (∃ mf, setup env r = esp32_sleep env mf) ∧
    ((setup env r).wakeCfg = none ↔
      (r.last_doorState ≠ bootSample env ∧ MAX_STUCK_BOOT_COUNT < r.stuckbootCount ∧
        ¬ ∃ k, env.wifiCalls 0 = some k ∧ 25 * k ≤ env.wifi_timeout)) := by
  refine ⟨?_, ?_, ?_⟩
  · obtain ⟨mf, h, _⟩ := setup_presleep env r
    exact ⟨mf, h⟩
  · intro hnone
    by_cases h : r.last_doorState = bootSample env
    · by_cases h2 : MAX_STUCK_BOOT_COUNT < r.stuckbootCount + 1
      · rw [setup_unchanged_escalate env r h h2,
          (esp32_sleep_spec env _).2.2.2.2.2.1] at hnone
        exact absurd hnone (by simp)
      · rw [setup_unchanged_rewait env r h (by omega),
          (esp32_sleep_spec env _).2.2.2.2.2.1] at hnone
        exact absurd hnone (by simp)
    · rw [setup_changed env r h] at hnone
      obtain ⟨mf, hcc, _, hw⟩ := changedCont_shape env (mBoot env r)
      rw [hcc, (esp32_sleep_spec env mf).2.2.2.2.2.1] at hnone
      rcases hw with hw | ⟨_, hstk, hconn⟩
      · rw [hw] at hnone
        exact absurd hnone (by simp)
      · refine ⟨h, (hstk : MAX_STUCK_BOOT_COUNT < r.stuckbootCount), ?_⟩
        rintro ⟨k, hk, hto⟩
        have hsw := connect_error env (mBoot env r) _ hconn
        have hsucc := setup_wifi_success env (mBoot env r) k hk hto
        rw [hsucc] at hsw
        simp at hsw
  · rintro ⟨hch, hstk, hfail⟩
    rw [setup_changed env r hch]
    obtain ⟨m2, herr, hwk⟩ := setup_wifi_fails env (mBoot env r) hfail
    have hce : connect_WIFI_MQTT env (mBoot env r)
        = Except.error (esp32_sleep env m2) := by
      unfold connect_WIFI_MQTT
      rw [herr]
    have hA : afterRecovery env (mBoot env r)
        = Except.error (esp32_sleep env m2) := by
      unfold afterRecovery
      rw [if_pos (show MAX_STUCK_BOOT_COUNT < (mBoot env r).retained.stuckbootCount
        from hstk), hce]
    show (changedCont env (mBoot env r)).wakeCfg = none
    unfold changedCont
    rw [hA, (esp32_sleep_spec env m2).2.2.2.2.2.1, hwk]
    rfl

/-- Counterexample to C6 as stated: with retained `stuckbootCount = 6`, a
changed (Closed) sample and a WiFi that never associates, the boot enters
deep sleep with no wake source configured at all — the connectivity-timeout
sleep does not reach the Sleep Controller with a valid wake configuration. -/
theorem sleep_without_wake_source :
    Action.deepSleepStart ∈ (setup envWifiDown ⟨7, 6, 1, 0⟩).trace ∧
    (setup envWifiDown ⟨7, 6, 1, 0⟩).wakeCfg = none := by
  decide

/-- C7: every boot cycle reaches the suspend call regardless of network
conditions — `setup` always ends in `esp32_sleep`, so `deepSleepStart` is in
every trace; the MQTT retry loop adds at most `mqtt_max_retries + 1` failed
attempts per invocation; and `setup_wifi` hands the cycle back (normally or
through its timeout sleep) within `wifi_timeout` plus one 25 ms delay of
clock time.  Telemetry publishes never branch on their result, so no publish
failure can block the sleep transition. -/
theorem every_boot_suspends :
    (∀ env r, ∃ mf, setup env r = esp32_sleep env mf ∧
      Action.deepSleepStart ∈ (setup env r).trace) ∧
    (∀ env m, mqttFailCount (reconnect env m).trace
      ≤ mqttFailCount m.trace + env.mqtt_max_retries + 1) ∧
    (∀ env m, (collapse (setup_wifi env m)).now ≤ m.now + env.wifi_timeout + 25) := by
  refine ⟨?_, ?_, setup_wifi_time⟩
  · intro env r
    obtain ⟨mf, h, _⟩ := setup_presleep env r
    refine ⟨mf, h, ?_⟩
    rw [h, (esp32_sleep_spec env mf).1]
    simp
  · intro env m
    obtain ⟨Δ, f, h1, h2, h3, h4, h5, _⟩ :=
      reconnectAux_spec env (env.mqtt_max_retries + 3) 0 m (Nat.zero_le _)
    show mqttFailCount (reconnectAux env 0 (env.mqtt_max_retries + 3) m).trace ≤ _
    unfold mqttFailCount
    rw [h1, List.countP_append, h5]
    omega

/-- C8: in every boot cycle the retained `last_doorState` is written exactly
once — the trace ends with a single commit immediately followed by the
deep-sleep entry, and no commit occurs earlier — and the committed value is
the fresh `digitalRead` taken inside `esp32_sleep` at suspend time (the last
read the cycle consumes). -/
theorem last_doorState_committed_once (env : Env) (r : RetainedState) :
    ∃ p v,
      (setup env r).trace = p ++ [Action.commitLast v, Action.deepSleepStart] ∧
      List.countP isCommit p = 0 ∧
      (setup env r).retained.last_doorState = v ∧
      v = (if env.reads ((setup env r).readIdx - 1) then HIGH else LOW) := by
  obtain ⟨mf, h, hc⟩ := setup_presleep env r
  refine ⟨mf.trace, readV env mf, ?_, hc, ?_, ?_⟩
  · rw [h, (esp32_sleep_spec env mf).1]
  · rw [h, (esp32_sleep_spec env mf).2.1]
  · rw [h, (esp32_sleep_spec env mf).2.2.2.2.1]
    show readV env mf = if env.reads (mf.readIdx + 1 - 1) then HIGH else LOW
    simp [readV]

/-- C3: whenever the retained `last_doorState` holds the cold-start sentinel
`-99`, the boot is classified as changed no matter what the sensor reads:
the unchanged branch of main.ino line 280 — the stuck-count increment and
its sleep paths — is never entered, as its trace marker never appears. -/
theorem sentinel_never_matches (env : Env) (r : RetainedState)
    (h : r.last_doorState = -99) :
    Action.unchangedBranch ∉ (setup env r).trace := by
  have hneq : r.last_doorState ≠ bootSample env := by
    rw [h]
    unfold bootSample
    by_cases hr : env.reads 0 <;> simp [hr] <;> decide
  rw [setup_changed env r hneq]
  obtain ⟨mf, hcc, ⟨Δ, htr, hkinds, _⟩, _⟩ := changedCont_shape env (mBoot env r)
  rw [hcc, (esp32_sleep_spec env mf).1, htr]
  intro hmem
  have h2 : Action.unchangedBranch ∈ Δ ∨
      Action.unchangedBranch = Action.commitLast (readV env mf) ∨
      Action.unchangedBranch = Action.deepSleepStart := by
    have : ((mBoot env r).trace : List Action) = [] := rfl
    rw [this] at hmem
    simp only [List.mem_append, List.mem_cons, List.mem_singleton, List.not_mem_nil,
      false_or, or_false] at hmem
    tauto
  rcases h2 with h2 | h2 | h2
  · rcases hkinds _ h2 with hk | ⟨b, hk⟩ | ⟨t, p, c, hk⟩ | ⟨e, hk⟩ | ⟨e, hk⟩ <;> simp at hk
  · simp at h2
  · simp at h2

/-- Witness for C3: the sentinel state under the always-open environment
never enters the unchanged branch. -/
theorem sentinel_never_matches_witness :
    (⟨0, 0, -99, 0⟩ : RetainedState).last_doorState = -99 ∧
    Action.unchangedBranch ∉ (setup envOpen ⟨0, 0, -99, 0⟩).trace :=
  ⟨rfl, sentinel_never_matches envOpen ⟨0, 0, -99, 0⟩ rfl⟩

/-- C10: the monitoring loop's elapsed time is based at `start_time`, which
`setup_wifi` sets when the connection attempt begins — every `loopEnter`
elapsed value recorded by any boot equals 25 ms per WiFi wait iteration plus
3000 ms per failed MQTT attempt, so connection time counts toward the
stuck-open timeout; and concretely, a boot whose MQTT backoff consumed
36000 ms enters the loop with elapsed 36000, publishes the stuck message and
exits at elapsed 36050 — after only 50 ms of in-loop door-open time, far
less than `MAX_OPENDOOR_TIME`. -/
theorem loop_elapsed_includes_connect :
    (∀ env r e, Action.loopEnter e ∈ (setup env r).trace → ConnectElapsed env e) ∧
    (Action.loopEnter 36000 ∈ (setup envSlowMqtt ⟨0, 0, 0, 0⟩).trace ∧
     Action.loopExit 36050 ∈ (setup envSlowMqtt ⟨0, 0, 0, 0⟩).trace ∧
     Action.pub "/sensor/door_status" message_door_stuck false
       ∈ (setup envSlowMqtt ⟨0, 0, 0, 0⟩).trace ∧
     36050 - 36000 < MAX_OPENDOOR_TIME) := by
  constructor
  · intro env r e hmem
    by_cases h : r.last_doorState = bootSample env
    · by_cases h2 : MAX_STUCK_BOOT_COUNT < r.stuckbootCount + 1
      · rw [setup_unchanged_escalate env r h h2, (esp32_sleep_spec env _).1] at hmem
        simp at hmem
      · rw [setup_unchanged_rewait env r h (by omega), (esp32_sleep_spec env _).1] at hmem
        simp at hmem
    · rw [setup_changed env r h] at hmem
      obtain ⟨mf, hcc, ⟨Δ, htr, _, hle⟩, _⟩ := changedCont_shape env (mBoot env r)
      rw [hcc, (esp32_sleep_spec env mf).1, htr] at hmem
      have hΔ : Action.loopEnter e ∈ Δ := by
        have hnil : ((mBoot env r).trace : List Action) = [] := rfl
        rw [hnil] at hmem
        simp only [List.mem_append, List.mem_cons, List.mem_singleton, List.not_mem_nil,
          false_or, or_false] at hmem
        rcases hmem with hmem | hmem | hmem
        · exact hmem
        · exact absurd hmem (by simp)
        · exact absurd hmem (by simp)
      exact hle e hΔ
  · refine ⟨by decide, by decide, by decide, by decide⟩

/-- Witness for C10: a short open episode whose WiFi wait took one 25 ms
iteration records `loopEnter 25`, and 25 is indeed a connection duration. -/
theorem loop_elapsed_includes_connect_witness :
    Action.loopEnter 25 ∈ (setup envOpenShort ⟨0, 0, 0, 0⟩).trace ∧
    ConnectElapsed envOpenShort 25 :=
  ⟨by decide, loop_elapsed_includes_connect.1 envOpenShort ⟨0, 0, 0, 0⟩ 25 (by decide)⟩

/-- C4 (amended): if after a fresh transition to open every in-loop sample
still reads open, the monitoring loop terminates with exactly one stuck
publish, within `MAX_OPENDOOR_TIME` plus two 50 ms iteration periods of
in-loop time (the timeout compares an elapsed value computed before the
iteration's delay, and the elapsed base is the WiFi connection start, so the
exit can also come much sooner); and if the sensor first reads closed at an
iteration whose elapsed time has not yet exceeded `MAX_OPENDOOR_TIME`, the
loop exits normally with no stuck publish. -/
theorem open_loop_timeout :
    (∀ env n m, (∀ i, m.readIdx ≤ i → env.reads i = true) →
      m.doorState = GPIO_DOOR_OPEN_STATE → m.startTime ≤ m.now →
      (openLoopAux env n (MAX_OPENDOOR_TIME / 50 + 2) m).trace
          = m.trace ++ [Action.pub "/sensor/door_status" message_door_stuck m.connected] ∧
      (openLoopAux env n (MAX_OPENDOOR_TIME / 50 + 2) m).now
          ≤ m.now + MAX_OPENDOOR_TIME + 100) ∧
    (∀ env jc fuel n m,
      (∀ t, t < jc → env.reads (m.readIdx + t) = true) →
      env.reads (m.readIdx + jc) = false →
      m.doorState = GPIO_DOOR_OPEN_STATE →
      m.startTime ≤ m.now →
      (m.now - m.startTime) + 50 * jc ≤ MAX_OPENDOOR_TIME →
      jc < fuel →
      (openLoopAux env n fuel m).trace = m.trace ∧
      (openLoopAux env n fuel m).doorState = GPIO_DOOR_CLOSED_STATE ∧
      (openLoopAux env n fuel m).now = m.now + 50 * (jc + 1)) := by
  constructor
  · intro env n m hreads hdoor hst
    have h := openLoopAux_stuckExit env (MAX_OPENDOOR_TIME / 50 + 2) n m hreads hdoor hst
      (by unfold MAX_OPENDOOR_TIME; omega) (by decide)
    refine ⟨h.1, le_trans h.2 (max_le (by omega) (by omega))⟩
  · intro env jc fuel n m h1 h2 h3 h4 h5 h6
    exact openLoopAux_closedExit env jc fuel n m h1 h2 h3 h4 h5 h6

/-- Witness for C4 (amended): with every sample open the loop at
`mLoopEntry` exits with the single stuck publish within the bound, and with
the sample turning closed at the second in-loop read it exits normally after
two iterations with no publish. -/
theorem open_loop_timeout_witness :
    ((openLoopAux envOpen 0 (MAX_OPENDOOR_TIME / 50 + 2) mLoopEntry).trace
        = mLoopEntry.trace
          ++ [Action.pub "/sensor/door_status" message_door_stuck mLoopEntry.connected] ∧
      (openLoopAux envOpen 0 (MAX_OPENDOOR_TIME / 50 + 2) mLoopEntry).now
        ≤ mLoopEntry.now + MAX_OPENDOOR_TIME + 100) ∧
    ((openLoopAux envOpenShort 0 5 mLoopEntry).trace = mLoopEntry.trace ∧
      (openLoopAux envOpenShort 0 5 mLoopEntry).doorState = GPIO_DOOR_CLOSED_STATE ∧
      (openLoopAux envOpenShort 0 5 mLoopEntry).now = mLoopEntry.now + 50 * (1 + 1)) :=
  ⟨open_loop_timeout.1 envOpen 0 mLoopEntry (fun i _ => rfl) rfl (by decide),
   open_loop_timeout.2 envOpenShort 1 5 0 mLoopEntry (by decide) (by decide) rfl
     (by decide) (by decide) (by decide)⟩

set_option maxRecDepth 100000 in
/-- Counterexample to C4 as stated, refuting both conjuncts at concrete
inputs.  First conjunct ("the loop terminates within MAX_OPEN_DURATION plus
one iteration period"): entering the loop at `mLoopEntry` — clock 50 ms,
`start_time` 50 ms, so zero pre-loop connection time — with the sensor never
reading Closed again, the loop publishes stuck once but exits only at clock
`mLoopEntry.now + MAX_OPENDOOR_TIME + 100`, two 50 ms iteration periods past
the timeout and strictly beyond MAX_OPEN_DURATION plus one period (the
timeout compares an elapsed value computed before the iteration's 50 ms
delay).  Second conjunct ("if the sensor reads Closed on some iteration, the
loop exits normally without publishing a stuck event"): in the `envSlowMqtt`
boot the loop's one and only sensor sample reads Closed
(`reads 1 = false`), yet the stuck message is still published, because the
elapsed time (36000 ms of MQTT backoff, counted from the WiFi connection
start) had already exceeded `MAX_OPENDOOR_TIME`. -/
theorem open_loop_counterexamples :
    ((openLoopAux envOpen 0 (MAX_OPENDOOR_TIME / 50 + 2) mLoopEntry).trace
        = [Action.pub "/sensor/door_status" message_door_stuck true] ∧
      (openLoopAux envOpen 0 (MAX_OPENDOOR_TIME / 50 + 2) mLoopEntry).now
        = mLoopEntry.now + MAX_OPENDOOR_TIME + 100 ∧
      mLoopEntry.now + MAX_OPENDOOR_TIME + 50
        < (openLoopAux envOpen 0 (MAX_OPENDOOR_TIME / 50 + 2) mLoopEntry).now) ∧
    (envSlowMqtt.reads 1 = false ∧
      Action.loopEnter 36000 ∈ (setup envSlowMqtt ⟨0, 0, 0, 0⟩).trace ∧
      Action.pub "/sensor/door_status" message_door_stuck false
        ∈ (setup envSlowMqtt ⟨0, 0, 0, 0⟩).trace) := by
  have hnow : (openLoopAux envOpen 0 (MAX_OPENDOOR_TIME / 50 + 2) mLoopEntry).now
      = mLoopEntry.now + MAX_OPENDOOR_TIME + 100 := by
    decide
  refine ⟨⟨by decide, hnow, ?_⟩, by decide, by decide, by decide⟩
  rw [hnow]
  decide

end Mailbox
